import Mathlib

/-!
# MonoX: resolution-curve ratio helpers, fit-parameter extraction and template building

A shallow embedding of

* `monojet/MetRecoilStudy/plotter/PlotResolution.cc` (namespace `PlotResolution`), and
* `monophoton/tp/TemplateGenerator.cc` (namespace `TemplateGenerator`).

Conventions of the embedding.

* `Double_t` values are elements of an ordered field `F`; `sqrt` is a function `F → F` handed
  to every definition that calls it, and `pow(x, 2)` is `x ^ 2`. The rounding of `Double_t`
  arithmetic is not modelled.
* A `Float_t` value is the element of `F` it stands for. Storing a `Double_t` in a `Float_t`,
  and adding two `Float_t` values, rounds to single precision: the rounding is a function
  `toFloat : F → F` handed to every definition that has `Float_t` variables, and `toFloat32`
  is the rounding of IEEE binary32. Reading a `Float_t` as a `Double_t` is exact.
* Statements that need the laws of the square root are made over `ℝ` with `Real.sqrt`.
* `exit(1)`, a thrown `std::runtime_error` and an access past the end of a `std::vector`
  or array are the `Except.error` outcomes of the type `Fatal`.
* Objects of the plotting framework (`TGraphErrors`, `TAxis`, `TH1D`, the entry list of a
  `TChain`) are modelled by the data their accessors return.
-/

namespace PlotResolution

/-- The ways a call can end without returning. -/
inductive Fatal
  /-- The call `exit(1)` after "Messed up graph size... Check that out". -/
  | messedUpGraphSize
  /-- The call `exit(1)` after "You haven't initialized an x expression yet!". -/
  | noXExpression
  /-- The call `exit(1)` after "Nothing has been initialized in resolution plot.". -/
  | nothingInitialized
  /-- An index past the end of a `std::vector` or of a graph's arrays. -/
  | outOfRange
  deriving DecidableEq, Repr

/-- The outcomes that are a call of `exit(1)`. -/
def Fatal.isExit : Fatal → Bool
  | .outOfRange => false
  | _ => true

/-- One point of a `TGraphErrors`: the entries `fX[i]`, `fY[i]`, `fEX[i]`, `fEY[i]`. -/
structure GraphPoint (F : Type) where
  x : F
  y : F
  ex : F
  ey : F
  deriving DecidableEq, Repr

/-- A `TGraphErrors`: its `GetN()` points in order. -/
abbrev TGraphErrors (F : Type) := List (GraphPoint F)

section Graph

variable {F : Type} [Field F]

/-- The point a freshly constructed graph holds at every index. -/
def zeroPoint : GraphPoint F := ⟨0, 0, 0, 0⟩

/-- The graph `new TGraphErrors(n)`: `n` points, all arrays preset to zero. -/
def newGraph (n : Nat) : TGraphErrors F := List.replicate n zeroPoint

/-- The graph grown to hold index `i` (what `SetPoint` and `SetPointError` do first). -/
def growTo (g : TGraphErrors F) (i : Nat) : TGraphErrors F :=
  if i < g.length then g else g ++ List.replicate (i + 1 - g.length) zeroPoint

/-- The call `g->SetPoint(i, x, y)`. -/
def SetPoint (g : TGraphErrors F) (i : Nat) (x y : F) : TGraphErrors F :=
  let g1 := growTo g i
  match g1[i]? with
  | some p => g1.set i { p with x := x, y := y }
  | none => g1

/-- The call `g->SetPointError(i, ex, ey)`. -/
def SetPointError (g : TGraphErrors F) (i : Nat) (ex ey : F) : TGraphErrors F :=
  let g1 := growTo g i
  match g1[i]? with
  | some p => g1.set i { p with ex := ex, ey := ey }
  | none => g1

/-- The loop over `i1` of `GetRatioToLines` for one pair of curves, with `k` iterations left. -/
def ratioLoop (sqrt : F → F) (fIncludeErrorBars : Bool) (inGraph ratioGraph : TGraphErrors F)
    (NumPoints : Nat) : Nat → Nat → TGraphErrors F → Except Fatal (TGraphErrors F)
  | 0, _, tempGraph => .ok tempGraph
  | k + 1, i1, tempGraph =>
    if inGraph.length ≠ NumPoints then .error .messedUpGraphSize
    else
      match inGraph[i1]?, ratioGraph[i1]? with
      | some p, some r =>
        let t1 := SetPoint tempGraph i1 p.x (p.y / r.y)
        let t2 :=
          if fIncludeErrorBars then
            SetPointError t1 i1 0 (sqrt ((p.ey / r.y) ^ 2 + (p.y * r.ey / r.y ^ 2) ^ 2))
          else t1
        ratioLoop sqrt fIncludeErrorBars inGraph ratioGraph NumPoints k (i1 + 1) t2
      | _, _ => .error .outOfRange

/-- The body of the loop over `i0` of `GetRatioToLines`: the curve made for one pair. -/
def ratioCurve (sqrt : F → F) (fIncludeErrorBars : Bool) (inGraph ratioGraph : TGraphErrors F) :
    Except Fatal (TGraphErrors F) :=
  let NumPoints := ratioGraph.length
  ratioLoop sqrt fIncludeErrorBars inGraph ratioGraph NumPoints NumPoints 0 (newGraph NumPoints)

/-- The function `PlotResolution::GetRatioToLines`: curve `i0` of `InGraphs` against curve `i0` of
`RatioGraphs`, in order. -/
def GetRatioToLines (sqrt : F → F) (fIncludeErrorBars : Bool) :
    List (TGraphErrors F) → List (TGraphErrors F) → Except Fatal (List (TGraphErrors F))
  | [], _ => .ok []
  | _ :: _, [] => .error .outOfRange
  | g :: gs, r :: rs =>
    match ratioCurve sqrt fIncludeErrorBars g r with
    | .error e => .error e
    | .ok tempGraph =>
      match GetRatioToLines sqrt fIncludeErrorBars gs rs with
      | .error e => .error e
      | .ok outGraphs => .ok (tempGraph :: outGraphs)

/-- The function `PlotResolution::GetRatioToLine`: the one reference curve repeated for every input. -/
def GetRatioToLine (sqrt : F → F) (fIncludeErrorBars : Bool) (InGraphs : List (TGraphErrors F))
    (RatioGraph : TGraphErrors F) : Except Fatal (List (TGraphErrors F)) :=
  GetRatioToLines sqrt fIncludeErrorBars InGraphs (List.replicate InGraphs.length RatioGraph)

/-- The loop of `GetRatioToPoint` that fills the constant reference curve. -/
def pointLoop (fIncludeErrorBars : Bool) (GraphX : TGraphErrors F) (RatioPoint PointError : F) :
    Nat → Nat → TGraphErrors F → Except Fatal (TGraphErrors F)
  | 0, _, tempRatioGraph => .ok tempRatioGraph
  | k + 1, i0, tempRatioGraph =>
    match GraphX[i0]? with
    | some p =>
      let t1 := SetPoint tempRatioGraph i0 p.x RatioPoint
      let t2 := if fIncludeErrorBars then SetPointError t1 i0 0 PointError else t1
      pointLoop fIncludeErrorBars GraphX RatioPoint PointError k (i0 + 1) t2
    | none => .error .outOfRange

/-- The function `PlotResolution::GetRatioToPoint`: a constant reference curve on the x-values of
`InGraphs[0]`, handed to `GetRatioToLine`. -/
def GetRatioToPoint (sqrt : F → F) (fIncludeErrorBars : Bool) (InGraphs : List (TGraphErrors F))
    (RatioPoint PointError : F) : Except Fatal (List (TGraphErrors F)) :=
  match InGraphs[0]? with
  | none => .error .outOfRange
  | some g0 =>
    let NumPoints := g0.length
    match pointLoop fIncludeErrorBars g0 RatioPoint PointError NumPoints 0 (newGraph NumPoints) with
    | .error e => .error e
    | .ok tempRatioGraph => GetRatioToLine sqrt fIncludeErrorBars InGraphs tempRatioGraph

/-- The point `GetRatioToLines` writes for the input point `p` and the reference point `r`. -/
def ratioPt (sqrt : F → F) (fIncludeErrorBars : Bool) (p r : GraphPoint F) : GraphPoint F :=
  ⟨p.x, p.y / r.y, 0,
    if fIncludeErrorBars then sqrt ((p.ey / r.y) ^ 2 + (p.y * r.ey / r.y ^ 2) ^ 2) else 0⟩

/-- The point `GetRatioToPoint` writes on the x-value of `p`. -/
def constPt (fIncludeErrorBars : Bool) (RatioPoint PointError : F) (p : GraphPoint F) :
    GraphPoint F :=
  ⟨p.x, RatioPoint, 0, if fIncludeErrorBars then PointError else 0⟩

end Graph

section Fit

variable {F : Type} [LinearOrderedField F]

/-- A `TF1` after a fit, as `GetParameter` and `GetParError` show it. -/
structure FitResult (F : Type) where
  GetParameter : Nat → F
  GetParError : Nat → F

/-- The fit with the two sigmas of the mixture, and their errors, in each other's slot. -/
def FitResult.swapSigmas (f : FitResult F) : FitResult F where
  GetParameter := fun i => if i = 1 then f.GetParameter 2 else if i = 2 then f.GetParameter 1
    else f.GetParameter i
  GetParError := fun i => if i = 1 then f.GetParError 2 else if i = 2 then f.GetParError 1
    else f.GetParError i

/-- What `MakeFitGraphs` asks of the histogram and fit library. -/
structure Framework (Tree Hist F : Type) where
  /-- The histogram `tempHist` (made with the given binning) after
  `inTree->Draw(varexp, selection)` has filled it. -/
  Draw : Tree → String → String → Int → F → F → Int → F → F → Hist
  /-- The function `fitLoose` after `ProjectionY(.., bin, bin)->Fit(fitLoose, "", "", MinY, MaxY)`,
  from the start values and limits given. -/
  FitLoose : Hist → Nat → List F → List (Int × F × F) → F → F → FitResult F
  /-- The function `fitFunc` after `ProjectionY(.., bin, bin)->Fit(fitFunc, "", "", MinY, MaxY)`,
  from the start values and limits given. -/
  FitFunc : Hist → Nat → List F → List (Int × F × F) → F → F → FitResult F

/-- The function `TAxis::GetBinCenter(bin)` of the histogram library, for the x-axis of
`tempHist`: the centre of bin `bin` (counted from 1) of `NumXBins` equal bins on `[MinX, MaxX]`
is the lower edge of the bin plus half a bin width (a histogram asked for no bins has one). -/
def GetBinCenter (NumXBins : Int) (MinX MaxX : F) (bin : Int) : F :=
  let fNbins : Int := if NumXBins ≤ 0 then 1 else NumXBins
  let binwidth : F := (MaxX - MinX) / (fNbins : F)
  MinX + ((bin : F) - 1) * binwidth + 0.5 * binwidth

/-- The "tricky parameter fetching" of `MakeFitGraphs`: point `i1` of `tempGraph` set by the
rule `ParamNumber` from the two fits. Under the rule `3` the variables `weight1` and `weight2`
are `Float_t`: each quotient is rounded by `toFloat` when it is stored, the sum
`weight1 + weight2` is an addition of two `Float_t` values, rounded by `toFloat`, and a product
of a weight and a `Double_t` is a `Double_t` product. -/
def extractPoint (sqrt toFloat : F → F) (fIncludeErrorBars : Bool) (ParamNumber : Int)
    (binCenter : F)
    (fitFunc fitLoose : FitResult F) (tempGraph : TGraphErrors F) (i1 : Nat) : TGraphErrors F :=
  if ParamNumber = 0 then
    let t := SetPoint tempGraph i1 binCenter (fitFunc.GetParameter 0)
    if fIncludeErrorBars then SetPointError t i1 0 (fitFunc.GetParError 0) else t
  else if ParamNumber = 1 then
    let sigWanted : Nat := if fitFunc.GetParameter 1 < fitFunc.GetParameter 2 then 1 else 2
    let t := SetPoint tempGraph i1 binCenter (fitFunc.GetParameter sigWanted)
    if fIncludeErrorBars then SetPointError t i1 0 (fitFunc.GetParError sigWanted) else t
  else if ParamNumber = 2 then
    let sigWanted : Nat := if fitFunc.GetParameter 1 > fitFunc.GetParameter 2 then 1 else 2
    let t := SetPoint tempGraph i1 binCenter (fitFunc.GetParameter sigWanted)
    if fIncludeErrorBars then SetPointError t i1 0 (fitFunc.GetParError sigWanted) else t
  else if ParamNumber = 3 then
    let weight1 : F := toFloat (fitFunc.GetParameter 3 / sqrt (fitFunc.GetParameter 1))
    let weight2 : F := toFloat (fitFunc.GetParameter 4 / sqrt (fitFunc.GetParameter 2))
    let t := SetPoint tempGraph i1 binCenter
      ((weight1 * fitFunc.GetParameter 1 + weight2 * fitFunc.GetParameter 2)
        / toFloat (weight1 + weight2))
    if fIncludeErrorBars then
      SetPointError t i1 0
        (sqrt ((weight1 * fitFunc.GetParError 1) ^ 2 + (weight2 * fitFunc.GetParError 2) ^ 2)
          / toFloat (weight1 + weight2))
    else t
  else if ParamNumber = 4 then
    let t := SetPoint tempGraph i1 binCenter (fitLoose.GetParameter 1)
    if fIncludeErrorBars then SetPointError t i1 0 (fitLoose.GetParError 1) else t
  else if ParamNumber = 5 then
    let t := SetPoint tempGraph i1 binCenter (fitLoose.GetParameter 2)
    if fIncludeErrorBars then SetPointError t i1 0 (fitLoose.GetParError 2) else t
  else tempGraph

/-- The data members of `PlotResolution` and of its base class that `MakeFitGraphs` reads or
writes. -/
structure State (Tree F : Type) where
  fInExprX : String
  fInExprXs : List String
  fInTrees : List Tree
  fInCuts : List String
  fInExpr : List String
  fDefaultTree : Tree
  fDefaultCut : String
  fDefaultExpr : String
  fIncludeErrorBars : Bool
  fDumpingFits : Bool
  fNumFitDumps : Nat
  fPlotCounter : Nat
  fParams : List Int
  fParamLows : List F
  fParamHighs : List F

/-- The limits set on `fitLoose`, in the order of the calls. -/
def looseLimits (MinY MaxY : F) : List (Int × F × F) :=
  [(0, 0, 1e8), (1, MinY, MaxY), (2, 0, MaxY - MinY)]

/-- The limits set on `fitFunc`, in the order of the calls: the five built in, then one per
`SetParameterLimits` call. -/
def funcLimits (fParams : List Int) (fParamLows fParamHighs : List F) (MinY MaxY : F) :
    List (Int × F × F) :=
  [(0, MinY, MaxY), (1, 0, MaxY - MinY), (2, 0, MaxY - MinY), (3, 0, 1e8), (4, 0, 1e8)]
    ++ List.zip fParams (List.zip fParamLows fParamHighs)

/-- The loop over the x-bins `i1` of `MakeFitGraphs` for one histogram, with `k` iterations
left; the state is the graph and `fNumFitDumps`. -/
def binLoop {Tree Hist : Type} (fw : Framework Tree Hist F) (sqrt toFloat : F → F)
    (fIncludeErrorBars fDumpingFits : Bool) (limits : List (Int × F × F)) (tempHist : Hist)
    (NumXBins : Int) (MinX MaxX MinY MaxY : F) (ParamNumber : Int) :
    Nat → Nat → TGraphErrors F × Nat → TGraphErrors F × Nat
  | 0, _, s => s
  | k + 1, i1, (tempGraph, fNumFitDumps) =>
    let fitLoose := fw.FitLoose tempHist (i1 + 1) [10, 0, 30] (looseLimits MinY MaxY) MinY MaxY
    let fitFunc := fw.FitFunc tempHist (i1 + 1)
      [fitLoose.GetParameter 1, fitLoose.GetParameter 2, fitLoose.GetParameter 2 * 1.2,
        fitLoose.GetParameter 0 * 0.7, fitLoose.GetParameter 0 * 0.3] limits MinY MaxY
    let dumps := if fDumpingFits then fNumFitDumps + 1 else fNumFitDumps
    let t := extractPoint sqrt toFloat fIncludeErrorBars ParamNumber
      (GetBinCenter NumXBins MinX MaxX ((i1 : Int) + 1)) fitFunc fitLoose tempGraph i1
    binLoop fw sqrt toFloat fIncludeErrorBars fDumpingFits limits tempHist NumXBins MinX MaxX MinY MaxY
      ParamNumber k (i1 + 1) (t, dumps)

/-- The name `Hist_%d` made from `fPlotCounter`. -/
def histName (fPlotCounter : Nat) : String := "Hist_" ++ toString fPlotCounter

/-- One curve of `MakeFitGraphs`: the histogram of `inExpr:fInExprX` under `inCut` drawn from
`inTree`, fitted bin by bin. Returns the graph and the new `fNumFitDumps`. -/
def fitCurve {Tree Hist : Type} (fw : Framework Tree Hist F) (sqrt toFloat : F → F)
    (fIncludeErrorBars fDumpingFits : Bool) (limits : List (Int × F × F))
    (inTree : Tree) (inCut inExpr fInExprX tempName : String) (fNumFitDumps : Nat)
    (NumXBins : Int) (MinX MaxX : F) (NumYBins : Int) (MinY MaxY : F) (ParamNumber : Int) :
    TGraphErrors F × Nat :=
  let tempHist := fw.Draw inTree (inExpr ++ ":" ++ fInExprX ++ ">>" ++ tempName) inCut
    NumXBins MinX MaxX NumYBins MinY MaxY
  binLoop fw sqrt toFloat fIncludeErrorBars fDumpingFits limits tempHist NumXBins MinX MaxX MinY MaxY
    ParamNumber NumXBins.toNat 0 (newGraph NumXBins.toNat, fNumFitDumps)

/-- The statement `if (list.size() != 0) cur = list[i0];`: the new value of `cur`, or nothing
when `i0` is past the end of a list that is not empty. -/
def pick {α : Type} (list : List α) (i0 : Nat) (cur : α) : Option α :=
  if list.length ≠ 0 then list[i0]? else some cur

/-- The local variables `inTree`, `inCut` and `inExpr` of `MakeFitGraphs`. -/
structure Locals (Tree : Type) where
  inTree : Tree
  inCut : String
  inExpr : String

/-- The loop over the curves `i0` of `MakeFitGraphs`, with `k` iterations left. -/
def plotLoop {Tree Hist : Type} (fw : Framework Tree Hist F) (sqrt toFloat : F → F)
    (limits : List (Int × F × F))
    (NumXBins : Int) (MinX MaxX : F) (NumYBins : Int) (MinY MaxY : F) (ParamNumber : Int) :
    Nat → Nat → State Tree F → Locals Tree → List (TGraphErrors F) →
      Except Fatal (List (TGraphErrors F) × State Tree F)
  | 0, _, st, _, theGraphs => .ok (theGraphs, st)
  | k + 1, i0, st, loc, theGraphs =>
    match pick st.fInTrees i0 loc.inTree, pick st.fInCuts i0 loc.inCut,
        pick st.fInExpr i0 loc.inExpr, pick st.fInExprXs i0 st.fInExprX with
    | some inTree, some inCut, some inExpr, some exprX =>
      let tempName := histName st.fPlotCounter
      let r := fitCurve fw sqrt toFloat st.fIncludeErrorBars st.fDumpingFits limits inTree inCut inExpr
        exprX tempName st.fNumFitDumps NumXBins MinX MaxX NumYBins MinY MaxY ParamNumber
      plotLoop fw sqrt toFloat limits NumXBins MinX MaxX NumYBins MinY MaxY ParamNumber k (i0 + 1)
        { st with fInExprX := exprX, fPlotCounter := st.fPlotCounter + 1, fNumFitDumps := r.2 }
        ⟨inTree, inCut, inExpr⟩ (theGraphs ++ [r.1])
    | _, _, _, _ => .error .outOfRange

/-- The curve count `NumPlots` of `MakeFitGraphs`. -/
def NumPlots {Tree : Type} (st : State Tree F) : Nat :=
  if st.fInTrees.length > 0 then st.fInTrees.length
  else if st.fInCuts.length > 0 then st.fInCuts.length
  else st.fInExpr.length

/-- The function `PlotResolution::MakeFitGraphs`: the curves, and the members as the call leaves them. -/
def MakeFitGraphs {Tree Hist : Type} (fw : Framework Tree Hist F) (sqrt toFloat : F → F)
    (st : State Tree F)
    (NumXBins : Int) (MinX MaxX : F) (NumYBins : Int) (MinY MaxY : F) (ParamNumber : Int) :
    Except Fatal (List (TGraphErrors F) × State Tree F) :=
  if st.fInExprX = "" ∧ st.fInExprXs.length = 0 then .error .noXExpression
  else if NumPlots st = 0 then .error .nothingInitialized
  else
    plotLoop fw sqrt toFloat (funcLimits st.fParams st.fParamLows st.fParamHighs MinY MaxY)
      NumXBins MinX MaxX NumYBins MinY MaxY ParamNumber (NumPlots st) 0 st
      ⟨st.fDefaultTree, st.fDefaultCut, st.fDefaultExpr⟩ []

end Fit

section SinglePrecision

variable {F : Type} [LinearOrderedField F] [FloorRing F]

/-- The integer nearest to `x`, the even one of the two when `x` lies halfway between them. -/
def roundHalfEven (x : F) : Int :=
  if x - (⌊x⌋ : F) < 1 / 2 then ⌊x⌋
  else if 1 / 2 < x - (⌊x⌋ : F) then ⌊x⌋ + 1
  else if ⌊x⌋ % 2 = 0 then ⌊x⌋
  else ⌊x⌋ + 1

/-- The rounding of a `Double_t` to `Float_t` (IEEE binary32, round to nearest, ties to even):
with `2 ^ e ≤ |x| < 2 ^ (e + 1)`, the nearest multiple of `2 ^ (e - 23)`, which has 24
significant bits. The exponent range of binary32 (overflow and subnormal numbers) is not
modelled. -/
def toFloat32 (x : F) : F :=
  if x = 0 then 0
  else (roundHalfEven (x / (2 : F) ^ (Int.log 2 |x| - 23)) : F) * (2 : F) ^ (Int.log 2 |x| - 23)

end SinglePrecision


/-- A framework for worked configurations: trees are named, the histogram records the tree, the
drawn expression and the cut, and every fit ends with all parameters `1` and all errors `0`. -/
def sampleFramework {F : Type} [LinearOrderedField F] :
    Framework String (String × String × String) F where
  Draw := fun inTree varexp selection _ _ _ _ _ _ => (inTree, varexp, selection)
  FitLoose := fun _ _ _ _ _ _ => ⟨fun _ => 1, fun _ => 0⟩
  FitFunc := fun _ _ _ _ _ _ => ⟨fun _ => 1, fun _ => 0⟩

/-- A configuration with the given x-expression, x-expression list, sources, cuts and
y-expressions, error bars included, nothing dumped and no extra parameter limits. -/
def sampleState {F : Type} [LinearOrderedField F] (fInExprX : String)
    (fInExprXs fInTrees fInCuts fInExpr : List String) : State String F where
  fInExprX := fInExprX
  fInExprXs := fInExprXs
  fInTrees := fInTrees
  fInCuts := fInCuts
  fInExpr := fInExpr
  fDefaultTree := "events"
  fDefaultCut := ""
  fDefaultExpr := "y"
  fIncludeErrorBars := true
  fDumpingFits := false
  fNumFitDumps := 0
  fPlotCounter := 0
  fParams := []
  fParamLows := []
  fParamHighs := []

end PlotResolution

namespace TemplateGenerator

/-- The ways a call can end without returning. -/
inductive Fatal
  /-- The thrown `std::runtime_error("entrylist")`. -/
  | entrylist
  /-- An index past the end of the buffer `value[NMAX]`. -/
  | outOfRange
  deriving DecidableEq, Repr

/-- The skims of `enum SkimType` (`nSkimTypes` is their number). -/
inductive SkimType
  | kEG
  | kMG
  | kMMG
  deriving DecidableEq, Repr

/-- The variables of `enum Variable` (`nVariables` is their number). -/
inductive Variable
  | kMass
  | kDRGen
  deriving DecidableEq, Repr

/-- One event of a chain: the branches `weight` and `tp.mass` (`tp.size` is the length of
`mass`). -/
structure Event (F : Type) where
  weight : F
  mass : List F

/-- A `TEntryListArray`: for each list position the tree entry number and the sub-list of the
selected objects of that entry (`none` where `GetSubListForEntry` returns null). -/
structure TEntryListArray where
  entries : List (Nat × Option (List Nat))

/-- A `TChain` of skimmed events. -/
structure TChain (F : Type) where
  events : List (Event F)
  /-- The object `elist` that `Draw(">>elist", expr, "entrylistarray")` leaves in the current
  directory (`none` when there is none). -/
  Draw : String → Option TEntryListArray

/-- A `TH1D`: `fArray` and `fSumw2` have `fNbins + 2` cells, the first for underflow and the
last for overflow. -/
structure TH1D (F : Type) where
  name : String
  fNbins : Nat
  fXmin : F
  fXmax : F
  fArray : List F
  fSumw2 : List F

/-- A `TTree` filled by `makeUnbinnedTemplate`: its rows `(weight, mass)` in order. -/
structure TTree (F : Type) where
  name : String
  rows : List (F × F)

/-- The data members of `TemplateGenerator`. -/
structure Members (F : Type) where
  input_ : SkimType → TChain F
  nBins_ : Variable → Nat
  xmin_ : Variable → F
  xmax_ : Variable → F

section Template

variable {F : Type} [LinearOrderedField F] [FloorRing F]

/-- The size `NMAX` of the buffer `value`. -/
def NMAX : Nat := 256

/-- The binning a new `TemplateGenerator` has. -/
def defaultNBins : Variable → Nat
  | .kMass => 60
  | .kDRGen => 40

/-- The lower edges a new `TemplateGenerator` has. -/
def defaultXmin : Variable → F
  | .kMass => 60
  | .kDRGen => 0

/-- The upper edges a new `TemplateGenerator` has. -/
def defaultXmax : Variable → F
  | .kMass => 120
  | .kDRGen => 2.5

/-- The function `TemplateGenerator::setTemplateBinning`. -/
def setTemplateBinning (g : Members F) (numBins : Nat) (lowBound highBound : F)
    (_var : Variable) : Members F :=
  { g with
    nBins_ := fun v => if v = _var then numBins else g.nBins_ v
    xmin_ := fun v => if v = _var then lowBound else g.xmin_ v
    xmax_ := fun v => if v = _var then highBound else g.xmax_ v }

/-- The histogram `new TH1D(name, "", nbins, xlow, xup)`: all cells zero, no `fSumw2` yet
(a histogram asked for no bins has one). -/
def newTH1D (name : String) (nbins : Nat) (xlow xup : F) : TH1D F :=
  let n := if nbins = 0 then 1 else nbins
  ⟨name, n, xlow, xup, List.replicate (n + 2) 0, []⟩

/-- The function `TemplateGenerator::makeEmptyTemplate`. -/
def makeEmptyTemplate (g : Members F) (_name : String) (_var : Variable) : TH1D F :=
  newTH1D _name (g.nBins_ _var) (g.xmin_ _var) (g.xmax_ _var)

/-- The function `TH1::Sumw2` on a histogram not filled yet: one sum of squared weights per cell, all
zero. -/
def TH1D.Sumw2 (h : TH1D F) : TH1D F :=
  { h with fSumw2 := List.replicate (h.fNbins + 2) 0 }

/-- The function `TAxis::FindBin` on an axis of equal bins. -/
def TH1D.FindBin (h : TH1D F) (x : F) : Nat :=
  if x < h.fXmin then 0
  else if ¬ (x < h.fXmax) then h.fNbins + 1
  else 1 + (⌊(h.fNbins : F) * (x - h.fXmin) / (h.fXmax - h.fXmin)⌋).toNat

/-- The function `TH1::Fill(x, w)` as far as the cells go. -/
def TH1D.Fill (h : TH1D F) (x w : F) : TH1D F :=
  let bin := h.FindBin x
  { h with
    fArray := h.fArray.modify (fun c => c + w) bin
    fSumw2 := h.fSumw2.modify (fun s => s + w * w) bin }

/-- The function `TH1::GetBinContent(bin)`. -/
def TH1D.GetBinContent (h : TH1D F) (bin : Nat) : F := (h.fArray[bin]?).getD 0

/-- The function `TH1::GetBinError(bin)` once `Sumw2` has been called. -/
def TH1D.GetBinError (sqrt : F → F) (h : TH1D F) (bin : Nat) : F :=
  sqrt ((h.fSumw2[bin]?).getD 0)

/-- The function `TH1::SetBinContent(bin, content)`. -/
def TH1D.SetBinContent (h : TH1D F) (bin : Nat) (content : F) : TH1D F :=
  { h with fArray := h.fArray.set bin content }

/-- The function `TH1::SetBinError(bin, error)`. -/
def TH1D.SetBinError (h : TH1D F) (bin : Nat) (error : F) : TH1D F :=
  { h with fSumw2 := h.fSumw2.set bin (error * error) }

/-- What `tree.GetEntry(iTreeEntry)` leaves in `weight` and in the buffer `value`: an entry
the chain has overwrites `weight` and the first `tp.size` slots. -/
def GetEntry (tree : TChain F) (iTreeEntry : Nat) (weight : F) (value : List F) :
    Except Fatal (F × List F) :=
  match tree.events[iTreeEntry]? with
  | none => .ok (weight, value)
  | some ev =>
    if ev.mass.length > NMAX then .error .outOfRange
    else .ok (ev.weight, ev.mass ++ value.drop ev.mass.length)

/-- The loop over `iE` of `makeTemplate`: one `Fill` per selected object. -/
def fillObjects (weight : F) (value : List F) : List Nat → TH1D F → Except Fatal (TH1D F)
  | [], tmp => .ok tmp
  | e :: es, tmp =>
    match value[e]? with
    | none => .error .outOfRange
    | some v => fillObjects weight value es (tmp.Fill v weight)

/-- The `while` loop of `makeTemplate` over the entries of the entry list. -/
def fillEntries (tree : TChain F) :
    List (Nat × Option (List Nat)) → F → List F → TH1D F → Except Fatal (TH1D F)
  | [], _, _, tmp => .ok tmp
  | (iTreeEntry, pList) :: rest, weight, value, tmp =>
    match GetEntry tree iTreeEntry weight value with
    | .error e => .error e
    | .ok (weight1, value1) =>
      match pList with
      | none => .error .entrylist
      | some sub =>
        match fillObjects weight1 value1 sub tmp with
        | .error e => .error e
        | .ok tmp1 => fillEntries tree rest weight1 value1 tmp1

/-- The body of the sanitation loop of `makeTemplate` for the bin `iX`. -/
def sanitizeBin (sqrt : F → F) (tmp : TH1D F) (iX : Nat) : TH1D F :=
  let t1 := if tmp.GetBinContent iX < 0 then tmp.SetBinContent iX 0 else tmp
  if t1.GetBinContent iX - t1.GetBinError sqrt iX < 0 then t1.SetBinError iX 0 else t1

/-- The sanitation loop of `makeTemplate`, with `k` iterations left. -/
def sanitizeLoop (sqrt : F → F) : Nat → Nat → TH1D F → TH1D F
  | 0, _, tmp => tmp
  | k + 1, iX, tmp => sanitizeLoop sqrt k (iX + 1) (sanitizeBin sqrt tmp iX)

/-- The histogram of `makeTemplate` when the loop over the entry list ends: filled, not yet
sanitized. -/
def filledTemplate (g : Members F) (_type : SkimType) (_name : String)
    (elist : TEntryListArray) (_var : Variable) (value0 : List F) : Except Fatal (TH1D F) :=
  fillEntries (g.input_ _type) elist.entries 0 value0 (makeEmptyTemplate g _name _var).Sumw2

/-- The function `TemplateGenerator::makeTemplate`; `none` is the null pointer and `value0` is what the
buffer `value` holds when the call starts. -/
def makeTemplate (sqrt : F → F) (g : Members F) (_type : SkimType) (_name _expr : String)
    (_var : Variable) (value0 : List F) : Except Fatal (Option (TH1D F)) :=
  match (g.input_ _type).Draw _expr with
  | none => .ok none
  | some elist =>
    match _var with
    | .kMass =>
      match filledTemplate g _type _name elist _var value0 with
      | .error e => .error e
      | .ok tmp => .ok (some (sanitizeLoop sqrt (g.nBins_ _var) 1 tmp))
    | _ => .ok none

/-- The loop over `iE` of `makeUnbinnedTemplate`: one row per selected object. -/
def rowObjects (weight : F) (value : List F) : List Nat → TTree F → Except Fatal (TTree F)
  | [], tempTree => .ok tempTree
  | e :: es, tempTree =>
    match value[e]? with
    | none => .error .outOfRange
    | some v => rowObjects weight value es { tempTree with rows := tempTree.rows ++ [(weight, v)] }

/-- The `while` loop of `makeUnbinnedTemplate` over the entries of the entry list. -/
def rowEntries (tree : TChain F) :
    List (Nat × Option (List Nat)) → F → List F → TTree F → Except Fatal (TTree F)
  | [], _, _, tempTree => .ok tempTree
  | (iTreeEntry, pList) :: rest, weight, value, tempTree =>
    match GetEntry tree iTreeEntry weight value with
    | .error e => .error e
    | .ok (weight1, value1) =>
      match pList with
      | none => .error .entrylist
      | some sub =>
        match rowObjects weight1 value1 sub tempTree with
        | .error e => .error e
        | .ok t1 => rowEntries tree rest weight1 value1 t1

/-- The function `TemplateGenerator::makeUnbinnedTemplate`; `none` is the null pointer and `value0` is what
the buffer `value` holds when the call starts. -/
def makeUnbinnedTemplate (g : Members F) (_type : SkimType) (_name _expr : String)
    (_var : Variable) (value0 : List F) : Except Fatal (Option (TTree F)) :=
  match (g.input_ _type).Draw _expr with
  | none => .ok none
  | some elist =>
    match _var with
    | .kMass =>
      match rowEntries (g.input_ _type) elist.entries 0 value0 ⟨_name, []⟩ with
      | .error e => .error e
      | .ok tempTree => .ok (some tempTree)
    | _ => .ok none

end Template


/-- A new `TemplateGenerator` (default binning) all of whose chains hold the one event of weight
`w` with the single object of mass `70`, and give `elist` for every selection. -/
def sampleGenerator {F : Type} [LinearOrderedField F] (w : F) (elist : Option TEntryListArray) :
    Members F where
  input_ := fun _ => ⟨[⟨w, [70]⟩], fun _ => elist⟩
  nBins_ := defaultNBins
  xmin_ := defaultXmin
  xmax_ := defaultXmax

end TemplateGenerator

/-! ## Lemmas and theorems -/

namespace PlotResolution

section GraphLemmas

variable {F : Type} [Field F]

theorem set_take_append_replicate {α : Type} (z v : α) (k : Nat) :
    ∀ (i : Nat) (L : List α), L[i]? = some v →
      (L.take i ++ List.replicate (k + 1) z).set i v = L.take (i + 1) ++ List.replicate k z
  | 0, [], h => by simp at h
  | 0, a :: L, h => by
    simp at h
    simp [List.replicate_succ, h]
  | i + 1, [], h => by simp at h
  | i + 1, a :: L, h => by
    simp at h
    simpa using set_take_append_replicate z v k i L h

theorem getElem?_take_append_replicate {α : Type} (z : α) (k i : Nat) (L : List α)
    (h : i + (k + 1) = L.length) :
    (L.take i ++ List.replicate (k + 1) z)[i]? = some z := by
  have hl : (L.take i).length = i := by simp; omega
  rw [List.getElem?_append_right (by omega), hl]
  simp

theorem SetPoint_of_getElem? (g : TGraphErrors F) (i : Nat) (x y : F) (p : GraphPoint F)
    (h : g[i]? = some p) : SetPoint g i x y = g.set i { p with x := x, y := y } := by
  have hi : i < g.length := (List.getElem?_eq_some.1 h).1
  simp [SetPoint, growTo, hi, h]

theorem SetPointError_of_getElem? (g : TGraphErrors F) (i : Nat) (ex ey : F) (p : GraphPoint F)
    (h : g[i]? = some p) : SetPointError g i ex ey = g.set i { p with ex := ex, ey := ey } := by
  have hi : i < g.length := (List.getElem?_eq_some.1 h).1
  simp [SetPointError, growTo, hi, h]

/-- Writing a point and then, when error bars are on, its error, into a slot that still
holds the preset zeros. -/
theorem write_zero_slot (b : Bool) (g : TGraphErrors F) (i : Nat) (x y e : F)
    (h : g[i]? = some zeroPoint) :
    (if b then SetPointError (SetPoint g i x y) i 0 e else SetPoint g i x y)
      = g.set i ⟨x, y, 0, if b then e else 0⟩ := by
  have hi : i < g.length := (List.getElem?_eq_some.1 h).1
  rw [SetPoint_of_getElem? g i x y zeroPoint h]
  cases b
  · simp [zeroPoint]
  · have h2 : (g.set i { (zeroPoint : GraphPoint F) with x := x, y := y })[i]?
        = some { (zeroPoint : GraphPoint F) with x := x, y := y } := by
      simp [hi]
    simp only [if_true]
    rw [SetPointError_of_getElem? _ i 0 e _ h2]
    simp

theorem ratioLoop_eq (sqrt : F → F) (b : Bool) (g r : TGraphErrors F) (n : Nat)
    (hg : g.length = n) (hr : r.length = n) :
    ∀ (k i1 : Nat) (temp : TGraphErrors F), i1 + k = n →
      temp = (List.zipWith (ratioPt sqrt b) g r).take i1 ++ List.replicate k zeroPoint →
      ratioLoop sqrt b g r n k i1 temp = .ok (List.zipWith (ratioPt sqrt b) g r)
  | 0, i1, temp, hik, ht => by
    have hz : (List.zipWith (ratioPt sqrt b) g r).length = n := by simp [hg, hr]
    have : i1 = n := by omega
    subst this
    simp [ratioLoop, ht, ← hz]
  | k + 1, i1, temp, hik, ht => by
    have hz : (List.zipWith (ratioPt sqrt b) g r).length = n := by simp [hg, hr]
    have hi1 : i1 < n := by omega
    obtain ⟨p, hp⟩ : ∃ p, g[i1]? = some p := ⟨g[i1], by simp [hg, hi1]⟩
    obtain ⟨q, hq⟩ : ∃ q, r[i1]? = some q := ⟨r[i1], by simp [hr, hi1]⟩
    have hslot : temp[i1]? = some zeroPoint := by
      rw [ht]; exact getElem?_take_append_replicate _ k i1 _ (by omega)
    have hzi : (List.zipWith (ratioPt sqrt b) g r)[i1]? = some (ratioPt sqrt b p q) := by
      rw [List.getElem?_zipWith, hp, hq]
    unfold ratioLoop
    simp only [hg, ne_eq, not_true_eq_false, if_false, hp, hq]
    rw [write_zero_slot b temp i1 _ _ _ hslot]
    apply ratioLoop_eq sqrt b g r n hg hr k (i1 + 1) _ (by omega)
    rw [ht]
    exact set_take_append_replicate _ _ k i1 _ hzi

theorem ratioCurve_eq (sqrt : F → F) (b : Bool) (g r : TGraphErrors F)
    (h : g.length = r.length) :
    ratioCurve sqrt b g r = .ok (List.zipWith (ratioPt sqrt b) g r) := by
  unfold ratioCurve
  exact ratioLoop_eq sqrt b g r r.length h rfl r.length 0 _ (by omega) (by simp [newGraph])

end GraphLemmas


section RatioTheorems

variable {F : Type} [Field F]

theorem GetRatioToLines_eq (sqrt : F → F) (b : Bool) :
    ∀ (InGraphs RatioGraphs : List (TGraphErrors F)),
      InGraphs.length = RatioGraphs.length →
      (∀ (i : Nat) (g r : TGraphErrors F), InGraphs[i]? = some g → RatioGraphs[i]? = some r → g.length = r.length) →
      GetRatioToLines sqrt b InGraphs RatioGraphs
        = .ok (List.zipWith (List.zipWith (ratioPt sqrt b)) InGraphs RatioGraphs)
  | [], _, _, _ => by simp [GetRatioToLines]
  | g :: gs, [], h, _ => by simp at h
  | g :: gs, r :: rs, h, hc => by
    have h0 : g.length = r.length := hc 0 g r (by simp) (by simp)
    have ih := GetRatioToLines_eq sqrt b gs rs (by simpa using h)
      (fun i g1 r1 hg hr => hc (i + 1) g1 r1 (by simpa using hg) (by simpa using hr))
    simp [GetRatioToLines, ratioCurve_eq sqrt b g r h0, ih]

/-- C1. For input curves and reference curves of the same number, with equal point counts
pair by pair and non-zero reference y-values, `GetRatioToLines` with error bars included
returns one curve per input curve, of the input curve's point count, and point `j` has the
input x-value, `y = y_in / y_ref`, x-error `0` and
y-error `sqrt ((err_in / y_ref)^2 + (y_in * err_ref / y_ref^2)^2)`. -/
theorem GetRatioToLines_quotient (sqrt : F → F) (InGraphs RatioGraphs : List (TGraphErrors F))
    (hlen : InGraphs.length = RatioGraphs.length)
    (hcount : ∀ (i : Nat) (g r : TGraphErrors F), InGraphs[i]? = some g → RatioGraphs[i]? = some r → g.length = r.length)
    (hnz : ∀ r ∈ RatioGraphs, ∀ q ∈ r, q.y ≠ 0) :
    ∃ out, GetRatioToLines sqrt true InGraphs RatioGraphs = .ok out ∧
      out.length = InGraphs.length ∧
      ∀ (i : Nat) (g r : TGraphErrors F), InGraphs[i]? = some g → RatioGraphs[i]? = some r →
        ∃ o : TGraphErrors F, out[i]? = some o ∧ o.length = g.length ∧
          ∀ (j : Nat) (p q : GraphPoint F), g[j]? = some p → r[j]? = some q →
            ∃ t : GraphPoint F, o[j]? = some t ∧ t.x = p.x ∧ t.y = p.y / q.y ∧ t.ex = 0 ∧
              t.ey = sqrt ((p.ey / q.y) ^ 2 + (p.y * q.ey / q.y ^ 2) ^ 2) := by
  have _ := hnz
  refine ⟨_, GetRatioToLines_eq sqrt true InGraphs RatioGraphs hlen hcount, by simp [hlen], ?_⟩
  intro i g r hg hr
  refine ⟨List.zipWith (ratioPt sqrt true) g r, by simp [List.getElem?_zipWith, hg, hr], ?_, ?_⟩
  · simp [hcount i g r hg hr]
  · intro j p q hp hq
    exact ⟨ratioPt sqrt true p q, by simp [List.getElem?_zipWith, hp, hq], rfl, rfl, rfl, rfl⟩

end RatioTheorems

theorem GetRatioToLines_quotient_witness :
    ∃ out : List (TGraphErrors ℝ),
      GetRatioToLines Real.sqrt true [[⟨1, 6, 0, 3⟩, ⟨2, 8, 0, 4⟩]] [[⟨1, 2, 0, 1⟩, ⟨2, 4, 0, 1⟩]]
        = .ok out ∧ out.length = 1 :=
  let ⟨out, h, hl, _⟩ := GetRatioToLines_quotient Real.sqrt
    [[⟨1, 6, 0, 3⟩, ⟨2, 8, 0, 4⟩]] [[⟨1, 2, 0, 1⟩, ⟨2, 4, 0, 1⟩]] rfl
    (by
      intro i g r hg hr
      cases i with
      | zero => simp at hg hr; subst hg; subst hr; rfl
      | succ i => simp at hg)
    (by simp)
  ⟨out, h, hl⟩


section RatioTheorems2

variable {F : Type} [Field F]

theorem ratioCurve_empty_reference (sqrt : F → F) (b : Bool) (g : TGraphErrors F) :
    ratioCurve sqrt b g [] = .ok [] := by
  simp [ratioCurve, ratioLoop, newGraph]

theorem ratioCurve_mismatch (sqrt : F → F) (b : Bool) (g r : TGraphErrors F)
    (hr : r.length ≠ 0) (h : g.length ≠ r.length) :
    ratioCurve sqrt b g r = .error .messedUpGraphSize := by
  obtain ⟨n, hn⟩ : ∃ n, r.length = n + 1 := ⟨r.length - 1, by omega⟩
  unfold ratioCurve
  simp only [hn]
  unfold ratioLoop
  simp [← hn, h]

theorem pointLoop_eq (b : Bool) (g : TGraphErrors F) (R E : F) :
    ∀ (k i0 : Nat) (temp : TGraphErrors F), i0 + k = g.length →
      temp = (g.map (constPt b R E)).take i0 ++ List.replicate k zeroPoint →
      pointLoop b g R E k i0 temp = .ok (g.map (constPt b R E))
  | 0, i0, temp, hik, ht => by
    have : i0 = (g.map (constPt b R E)).length := by simp; omega
    simp [pointLoop, ht, this]
  | k + 1, i0, temp, hik, ht => by
    have hi0 : i0 < g.length := by omega
    obtain ⟨p, hp⟩ : ∃ p, g[i0]? = some p := ⟨g[i0], by simp [hi0]⟩
    have hslot : temp[i0]? = some zeroPoint := by
      rw [ht]; exact getElem?_take_append_replicate _ k i0 _ (by simp; omega)
    have hmi : (g.map (constPt b R E))[i0]? = some (constPt b R E p) := by
      simp [hp]
    unfold pointLoop
    simp only [hp]
    rw [write_zero_slot b temp i0 _ _ _ hslot]
    apply pointLoop_eq b g R E k (i0 + 1) _ (by omega)
    rw [ht]
    exact set_take_append_replicate _ _ k i0 _ hmi

theorem GetRatioToPoint_single (sqrt : F → F) (b : Bool) (C : TGraphErrors F) (R E : F) :
    GetRatioToPoint sqrt b [C] R E
      = .ok [List.zipWith (ratioPt sqrt b) C (C.map (constPt b R E))] := by
  have hp := pointLoop_eq b C R E C.length 0 (newGraph C.length) (by omega) (by simp [newGraph])
  have hl := GetRatioToLines_eq sqrt b [C] [C.map (constPt b R E)] rfl (by
    intro i g r hg hr
    cases i with
    | zero =>
      simp at hg hr
      subst hg; subst hr; simp
    | succ i => simp at hg)
  simp only [GetRatioToPoint, List.getElem?_cons_zero, hp, GetRatioToLine, List.length_singleton,
    List.replicate_one, hl]
  rfl

end RatioTheorems2

/-- C2. `GetRatioToLines` on a one-point input curve paired with a reference curve of no
points: the loop over the points, which holds the size check, is never entered, and the call
returns an empty curve for the pair instead of ending in the fatal size mismatch. -/
theorem GetRatioToLines_empty_reference_returns :
    GetRatioToLines Real.sqrt true [[⟨1, 2, 0, 1⟩]] [[]] = .ok [[]] ∧
    GetRatioToLine Real.sqrt true [[⟨1, 2, 0, 1⟩]] [] = .ok [[]] := by
  constructor <;> simp [GetRatioToLine, GetRatioToLines, ratioCurve_empty_reference]

/-- C10 fails as it is written: the curve with the one point `(x, y, ey) = (0, 1, 3)`
has all y-values `1`, and `GetRatioToPoint` with reference value `1` and reference error `0`
returns the y-error `3`, not `0`. -/
theorem GetRatioToPoint_unit_keeps_error :
    GetRatioToPoint Real.sqrt true [[⟨0, 1, 0, 3⟩]] 1 0 = .ok [[⟨0, 1, 0, 3⟩]] ∧ (3 : ℝ) ≠ 0 := by
  refine ⟨?_, by norm_num⟩
  rw [GetRatioToPoint_single]
  have h : Real.sqrt ((3 : ℝ) ^ 2) = 3 := Real.sqrt_sq (by norm_num)
  simp [ratioPt, constPt, h]

/-- C10, amended. For every curve `C` whose y-values are all `1`, `GetRatioToPoint` applied
to `C` with reference value `1` and reference error `0`, error bars included, returns one
curve of `C`'s point count with `C`'s x-values, every y-value `1`, every x-error `0`, and at
each point the absolute value of `C`'s own y-error as y-error. -/
theorem GetRatioToPoint_unit (C : TGraphErrors ℝ) (hy : ∀ p ∈ C, p.y = 1) :
    ∃ o : TGraphErrors ℝ, GetRatioToPoint Real.sqrt true [C] 1 0 = .ok [o] ∧
      o.length = C.length ∧
      ∀ (j : Nat) (p : GraphPoint ℝ), C[j]? = some p →
        ∃ t : GraphPoint ℝ, o[j]? = some t ∧ t.x = p.x ∧ t.y = 1 ∧ t.ex = 0 ∧ t.ey = |p.ey| := by
  refine ⟨_, GetRatioToPoint_single Real.sqrt true C 1 0, by simp, ?_⟩
  intro j p hp
  refine ⟨ratioPt Real.sqrt true p (constPt true 1 0 p), ?_, rfl, ?_, rfl, ?_⟩
  · simp [List.getElem?_zipWith, hp]
  · have : p.y = 1 := hy p (List.getElem?_mem hp)
    simp [ratioPt, constPt, this]
  · simp [ratioPt, constPt, Real.sqrt_sq_eq_abs]

theorem GetRatioToPoint_unit_witness :
    ∃ o : TGraphErrors ℝ,
      GetRatioToPoint Real.sqrt true [[⟨0, 1, 0, 3⟩, ⟨5, 1, 0, -2⟩]] 1 0 = .ok [o] ∧
      o.length = 2 :=
  let ⟨o, h, hl, _⟩ := GetRatioToPoint_unit [⟨0, 1, 0, 3⟩, ⟨5, 1, 0, -2⟩] (by simp)
  ⟨o, h, hl⟩


section ExtractLemmas

variable {F : Type} [LinearOrderedField F]

theorem growTo_getElem? (g : TGraphErrors F) (i : Nat) :
    (growTo g i)[i]? = some ((g[i]?).getD zeroPoint) := by
  unfold growTo
  by_cases h : i < g.length
  · simp [h]
  · have hle : g.length ≤ i := by omega
    simp only [h, if_false]
    rw [List.getElem?_append_right hle, List.getElem?_eq_none hle]
    simp [List.getElem?_replicate]
    omega

theorem SetPoint_getElem? (g : TGraphErrors F) (i : Nat) (x y : F) :
    (SetPoint g i x y)[i]? = some { (g[i]?).getD zeroPoint with x := x, y := y } := by
  have h := growTo_getElem? g i
  have hi : i < (growTo g i).length := (List.getElem?_eq_some.1 h).1
  simp [SetPoint, h, hi]

theorem SetPointError_getElem? (g : TGraphErrors F) (i : Nat) (ex ey : F) :
    (SetPointError g i ex ey)[i]? = some { (g[i]?).getD zeroPoint with ex := ex, ey := ey } := by
  have h := growTo_getElem? g i
  have hi : i < (growTo g i).length := (List.getElem?_eq_some.1 h).1
  simp [SetPointError, h, hi]

/-- The slot `i` after `SetPoint` and then, when error bars are on, `SetPointError`. -/
theorem write_getElem? (b : Bool) (g : TGraphErrors F) (i : Nat) (x y e : F) :
    (if b then SetPointError (SetPoint g i x y) i 0 e else SetPoint g i x y)[i]?
      = some ⟨x, y, if b then 0 else ((g[i]?).getD zeroPoint).ex,
          if b then e else ((g[i]?).getD zeroPoint).ey⟩ := by
  cases b
  · simp [SetPoint_getElem?]
  · simp [SetPointError_getElem?, SetPoint_getElem?]

end ExtractLemmas

section SinglePrecisionLemmas

variable {F : Type} [LinearOrderedField F] [FloorRing F]

end SinglePrecisionLemmas

/-- C8 fails as it is written: on a tie `sigma1 = sigma2 = 2` with errors `0.1` in slot 1 and
`0.2` in slot 2, the narrower-sigma rule reports the error of slot 2, so the fit reports
`0.2` and the fit with the slots swapped reports `0.1`. -/
theorem narrower_tie_not_swap_invariant :
    extractPoint Real.sqrt toFloat32 true 1 0 ⟨fun _ => 2, fun i => if i = 1 then 0.1 else 0.2⟩
        ⟨fun _ => 0, fun _ => 0⟩ (newGraph 1) 0 = [⟨0, 2, 0, 0.2⟩] ∧
    extractPoint Real.sqrt toFloat32 true 1 0
        (FitResult.swapSigmas ⟨fun _ => 2, fun i => if i = 1 then 0.1 else 0.2⟩)
        ⟨fun _ => 0, fun _ => 0⟩ (newGraph 1) 0 = [⟨0, 2, 0, 0.1⟩] ∧
    (0.2 : ℝ) ≠ 0.1 := by
  refine ⟨?_, ?_, by norm_num⟩
  · simp [extractPoint, SetPoint, SetPointError, growTo, newGraph, zeroPoint]
  · simp [extractPoint, SetPoint, SetPointError, growTo, newGraph, zeroPoint,
      FitResult.swapSigmas]

/-- C8, amended. For every mixture fit result the narrower-sigma rule (`ParamNumber = 1`)
writes the value `min sigma1 sigma2`, and with error bars included the error of slot 1 when
`sigma1 < sigma2` and of slot 2 otherwise (so on a tie the error of slot 2); when
`sigma1 ≠ sigma2` the graph it produces is unchanged by swapping `(sigma1, err1)` and
`(sigma2, err2)`. -/
theorem extractPoint_narrower {F : Type} [LinearOrderedField F] (sqrt toFloat : F → F)
    (fIncludeErrorBars : Bool) (binCenter : F) (fitFunc fitLoose : FitResult F)
    (tempGraph : TGraphErrors F) (i1 : Nat) :
    (∃ t : GraphPoint F,
      (extractPoint sqrt toFloat fIncludeErrorBars 1 binCenter fitFunc fitLoose tempGraph i1)[i1]?
        = some t ∧
      t.x = binCenter ∧
      t.y = min (fitFunc.GetParameter 1) (fitFunc.GetParameter 2) ∧
      (fIncludeErrorBars = true →
        t.ex = 0 ∧
        t.ey = if fitFunc.GetParameter 1 < fitFunc.GetParameter 2 then fitFunc.GetParError 1
          else fitFunc.GetParError 2)) ∧
    (fitFunc.GetParameter 1 ≠ fitFunc.GetParameter 2 →
      extractPoint sqrt toFloat fIncludeErrorBars 1 binCenter fitFunc.swapSigmas fitLoose tempGraph i1
        = extractPoint sqrt toFloat fIncludeErrorBars 1 binCenter fitFunc fitLoose tempGraph i1) := by
  constructor
  · refine ⟨_, write_getElem? fIncludeErrorBars tempGraph i1 binCenter _ _, rfl, ?_, ?_⟩
    · by_cases h : fitFunc.GetParameter 1 < fitFunc.GetParameter 2
      · simp [h, min_eq_left h.le]
      · simp [h, min_eq_right (not_lt.1 h)]
    · intro hb
      by_cases h : fitFunc.GetParameter 1 < fitFunc.GetParameter 2 <;> simp [hb, h]
  · intro hne
    rcases lt_or_gt_of_ne hne with h | h
    · have h' : ¬ fitFunc.GetParameter 2 < fitFunc.GetParameter 1 := not_lt.2 h.le
      simp [extractPoint, FitResult.swapSigmas, h, h']
    · have h' : ¬ fitFunc.GetParameter 1 < fitFunc.GetParameter 2 := not_lt.2 h.le
      simp [extractPoint, FitResult.swapSigmas, h, h']

theorem extractPoint_narrower_witness :
    extractPoint Real.sqrt toFloat32 true 1 0
        (FitResult.swapSigmas ⟨fun i => if i = 1 then 2 else 5, fun i => if i = 1 then 0.1 else 0.2⟩)
        ⟨fun _ => 0, fun _ => 0⟩ (newGraph 1) 0
      = extractPoint Real.sqrt toFloat32 true 1 0
        ⟨fun i => if i = 1 then 2 else 5, fun i => if i = 1 then 0.1 else 0.2⟩
        ⟨fun _ => 0, fun _ => 0⟩ (newGraph 1) 0 :=
  (extractPoint_narrower Real.sqrt toFloat32 true 0
    ⟨fun i => if i = 1 then 2 else 5, fun i => if i = 1 then 0.1 else 0.2⟩
    ⟨fun _ => 0, fun _ => 0⟩ (newGraph 1) 0).2 (by norm_num)


section PlotLoopLemmas

variable {F : Type} [LinearOrderedField F] {Tree Hist : Type}

theorem pick_some {α : Type} (list : List α) (i0 : Nat) (cur : α)
    (h : list = [] ∨ i0 < list.length) : pick list i0 cur = some ((list[i0]?).getD cur) := by
  unfold pick
  rcases h with h | h
  · subst h; simp
  · have hne : list.length ≠ 0 := by omega
    simp [hne, List.getElem?_eq_getElem h]

theorem pick_none {α : Type} (list : List α) (i0 : Nat) (cur : α)
    (hne : list ≠ []) (h : list.length ≤ i0) : pick list i0 cur = none := by
  unfold pick
  have hl : list.length ≠ 0 := by
    intro h0
    exact hne (List.length_eq_zero.1 h0)
  simp [hl, List.getElem?_eq_none h]

theorem getD_step {α : Type} (list : List α) (i0 j k : Nat) (cur : α)
    (h : list = [] ∨ i0 + (k + 1) ≤ list.length) (hj : j < k) :
    (list[i0 + 1 + j]?).getD ((list[i0]?).getD cur) = (list[i0 + (j + 1)]?).getD cur := by
  have e : i0 + 1 + j = i0 + (j + 1) := by omega
  rw [e]
  rcases h with h | h
  · subst h; simp
  · have hlt : i0 + (j + 1) < list.length := by omega
    simp [List.getElem?_eq_getElem hlt]

/-- The curves of `plotLoop` when no list is too short: one per iteration, each fitted from
element `i0 + j` of a list that is not empty and from the current value otherwise. -/
theorem plotLoop_ok (fw : Framework Tree Hist F) (sqrt toFloat : F → F) (limits : List (Int × F × F))
    (NumXBins : Int) (MinX MaxX : F) (NumYBins : Int) (MinY MaxY : F) (ParamNumber : Int)
    (T : List Tree) (C E X : List String) (b dmp : Bool) :
    ∀ (k i0 : Nat) (st : State Tree F) (loc : Locals Tree) (graphs : List (TGraphErrors F)),
      st.fInTrees = T → st.fInCuts = C → st.fInExpr = E → st.fInExprXs = X →
      st.fIncludeErrorBars = b → st.fDumpingFits = dmp →
      (T = [] ∨ i0 + k ≤ T.length) → (C = [] ∨ i0 + k ≤ C.length) →
      (E = [] ∨ i0 + k ≤ E.length) → (X = [] ∨ i0 + k ≤ X.length) →
      ∃ (out : List (TGraphErrors F)) (st1 : State Tree F),
        plotLoop fw sqrt toFloat limits NumXBins MinX MaxX NumYBins MinY MaxY ParamNumber k i0 st loc
          graphs = .ok (graphs ++ out, st1) ∧
        out.length = k ∧
        ∀ j : Nat, j < k → ∃ d : Nat,
          out[j]? = some (fitCurve fw sqrt toFloat b dmp limits
            ((T[i0 + j]?).getD loc.inTree) ((C[i0 + j]?).getD loc.inCut)
            ((E[i0 + j]?).getD loc.inExpr) ((X[i0 + j]?).getD st.fInExprX)
            (histName (st.fPlotCounter + j)) d
            NumXBins MinX MaxX NumYBins MinY MaxY ParamNumber).1
  | 0, i0, st, loc, graphs, _, _, _, _, _, _, _, _, _, _ =>
    ⟨[], st, by simp [plotLoop], rfl, by intro j hj; omega⟩
  | k + 1, i0, st, loc, graphs, hT, hC, hE, hX, hb, hd, lT, lC, lE, lX => by
    subst hT; subst hC; subst hE; subst hX; subst hb; subst hd
    have pT := pick_some st.fInTrees i0 loc.inTree (lT.imp id (fun h => by omega))
    have pC := pick_some st.fInCuts i0 loc.inCut (lC.imp id (fun h => by omega))
    have pE := pick_some st.fInExpr i0 loc.inExpr (lE.imp id (fun h => by omega))
    have pX := pick_some st.fInExprXs i0 st.fInExprX (lX.imp id (fun h => by omega))
    obtain ⟨out, st1, hrun, hlen, hcurve⟩ := plotLoop_ok fw sqrt toFloat limits NumXBins MinX MaxX
      NumYBins MinY MaxY ParamNumber st.fInTrees st.fInCuts st.fInExpr st.fInExprXs
      st.fIncludeErrorBars st.fDumpingFits k (i0 + 1)
      { st with
        fInExprX := (st.fInExprXs[i0]?).getD st.fInExprX
        fPlotCounter := st.fPlotCounter + 1
        fNumFitDumps := (fitCurve fw sqrt toFloat st.fIncludeErrorBars st.fDumpingFits limits ((st.fInTrees[i0]?).getD loc.inTree)
          ((st.fInCuts[i0]?).getD loc.inCut) ((st.fInExpr[i0]?).getD loc.inExpr) ((st.fInExprXs[i0]?).getD st.fInExprX)
          (histName st.fPlotCounter) st.fNumFitDumps
          NumXBins MinX MaxX NumYBins MinY MaxY ParamNumber).2 }
      ⟨(st.fInTrees[i0]?).getD loc.inTree, (st.fInCuts[i0]?).getD loc.inCut, (st.fInExpr[i0]?).getD loc.inExpr⟩
      (graphs ++ [(fitCurve fw sqrt toFloat st.fIncludeErrorBars st.fDumpingFits limits ((st.fInTrees[i0]?).getD loc.inTree)
          ((st.fInCuts[i0]?).getD loc.inCut) ((st.fInExpr[i0]?).getD loc.inExpr) ((st.fInExprXs[i0]?).getD st.fInExprX)
          (histName st.fPlotCounter) st.fNumFitDumps
          NumXBins MinX MaxX NumYBins MinY MaxY ParamNumber).1])
      rfl rfl rfl rfl rfl rfl
      (lT.imp id (fun h => by omega)) (lC.imp id (fun h => by omega))
      (lE.imp id (fun h => by omega)) (lX.imp id (fun h => by omega))
    refine ⟨(fitCurve fw sqrt toFloat st.fIncludeErrorBars st.fDumpingFits limits ((st.fInTrees[i0]?).getD loc.inTree)
          ((st.fInCuts[i0]?).getD loc.inCut) ((st.fInExpr[i0]?).getD loc.inExpr) ((st.fInExprXs[i0]?).getD st.fInExprX)
          (histName st.fPlotCounter) st.fNumFitDumps
          NumXBins MinX MaxX NumYBins MinY MaxY ParamNumber).1 :: out, st1, ?_, by simp [hlen],
      ?_⟩
    · unfold plotLoop
      simp only [pT, pC, pE, pX]
      rw [hrun]
      simp
    · intro j hj
      cases j with
      | zero => exact ⟨st.fNumFitDumps, by simp⟩
      | succ j =>
        obtain ⟨d, hd1⟩ := hcurve j (by omega)
        refine ⟨d, ?_⟩
        simp only [List.getElem?_cons_succ, hd1]
        rw [getD_step st.fInTrees i0 j k loc.inTree lT (by omega),
          getD_step st.fInCuts i0 j k loc.inCut lC (by omega),
          getD_step st.fInExpr i0 j k loc.inExpr lE (by omega),
          getD_step st.fInExprXs i0 j k st.fInExprX lX (by omega)]
        have e : st.fPlotCounter + 1 + j = st.fPlotCounter + (j + 1) := by omega
        simp only [e]

end PlotLoopLemmas


section PlotLoopLemmas2

variable {F : Type} [LinearOrderedField F] {Tree Hist : Type}

/-- The loop `plotLoop` never ends in one of the `exit(1)` calls. -/
theorem plotLoop_error (fw : Framework Tree Hist F) (sqrt toFloat : F → F) (limits : List (Int × F × F))
    (NumXBins : Int) (MinX MaxX : F) (NumYBins : Int) (MinY MaxY : F) (ParamNumber : Int) :
    ∀ (k i0 : Nat) (st : State Tree F) (loc : Locals Tree) (graphs : List (TGraphErrors F))
      (e : Fatal),
      plotLoop fw sqrt toFloat limits NumXBins MinX MaxX NumYBins MinY MaxY ParamNumber k i0 st loc
        graphs = .error e → e = .outOfRange
  | 0, i0, st, loc, graphs, e, h => by simp [plotLoop] at h
  | k + 1, i0, st, loc, graphs, e, h => by
    unfold plotLoop at h
    split at h
    · exact plotLoop_error fw sqrt toFloat limits NumXBins MinX MaxX NumYBins MinY MaxY ParamNumber k
        (i0 + 1) _ _ _ e h
    · cases h; rfl

/-- The loop `plotLoop` runs into the end of a list when, at one of its iterations, a list that is
not empty has no element of that index. -/
theorem plotLoop_short (fw : Framework Tree Hist F) (sqrt toFloat : F → F) (limits : List (Int × F × F))
    (NumXBins : Int) (MinX MaxX : F) (NumYBins : Int) (MinY MaxY : F) (ParamNumber : Int)
    (T : List Tree) (C E X : List String) (j : Nat)
    (hshort : (T ≠ [] ∧ T.length ≤ j) ∨ (C ≠ [] ∧ C.length ≤ j) ∨ (E ≠ [] ∧ E.length ≤ j)
      ∨ (X ≠ [] ∧ X.length ≤ j)) :
    ∀ (k i0 : Nat) (st : State Tree F) (loc : Locals Tree) (graphs : List (TGraphErrors F)),
      st.fInTrees = T → st.fInCuts = C → st.fInExpr = E → st.fInExprXs = X →
      i0 ≤ j → j < i0 + k →
      plotLoop fw sqrt toFloat limits NumXBins MinX MaxX NumYBins MinY MaxY ParamNumber k i0 st loc
        graphs = .error .outOfRange
  | 0, i0, st, loc, graphs, _, _, _, _, h1, h2 => by omega
  | k + 1, i0, st, loc, graphs, hT, hC, hE, hX, h1, h2 => by
    subst hT; subst hC; subst hE; subst hX
    unfold plotLoop
    split
    · rename_i inTree inCut inExpr exprX pT pC pE pX
      have hne : i0 ≠ j := by
        intro hij
        subst hij
        rcases hshort with h | h | h | h
        · rw [pick_none _ _ _ h.1 h.2] at pT; cases pT
        · rw [pick_none _ _ _ h.1 h.2] at pC; cases pC
        · rw [pick_none _ _ _ h.1 h.2] at pE; cases pE
        · rw [pick_none _ _ _ h.1 h.2] at pX; cases pX
      exact plotLoop_short fw sqrt toFloat limits NumXBins MinX MaxX NumYBins MinY MaxY ParamNumber
        st.fInTrees st.fInCuts st.fInExpr st.fInExprXs j hshort k (i0 + 1) _ _ _ rfl rfl rfl rfl
        (by omega) (by omega)
    · rfl

end PlotLoopLemmas2


theorem NumPlots_eq_zero {F Tree : Type} (st : State Tree F) :
    NumPlots st = 0 ↔ st.fInTrees = [] ∧ st.fInCuts = [] ∧ st.fInExpr = [] := by
  unfold NumPlots
  constructor
  · intro h
    split_ifs at h with h1 h2
    · omega
    · omega
    · exact ⟨List.length_eq_zero.1 (by omega), List.length_eq_zero.1 (by omega),
        List.length_eq_zero.1 h⟩
  · rintro ⟨h1, h2, h3⟩
    simp [h1, h2, h3]

section FitGraphTheorems

variable {F : Type} [LinearOrderedField F] {Tree Hist : Type}

theorem MakeFitGraphs_run (fw : Framework Tree Hist F) (sqrt toFloat : F → F) (st : State Tree F)
    (NumXBins : Int) (MinX MaxX : F) (NumYBins : Int) (MinY MaxY : F) (ParamNumber : Int)
    (hx : ¬ (st.fInExprX = "" ∧ st.fInExprXs = []))
    (hn : ¬ (st.fInTrees = [] ∧ st.fInCuts = [] ∧ st.fInExpr = [])) :
    MakeFitGraphs fw sqrt toFloat st NumXBins MinX MaxX NumYBins MinY MaxY ParamNumber
      = plotLoop fw sqrt toFloat (funcLimits st.fParams st.fParamLows st.fParamHighs MinY MaxY)
          NumXBins MinX MaxX NumYBins MinY MaxY ParamNumber (NumPlots st) 0 st
          ⟨st.fDefaultTree, st.fDefaultCut, st.fDefaultExpr⟩ [] := by
  have hx1 : ¬ (st.fInExprX = "" ∧ st.fInExprXs.length = 0) := by
    rw [List.length_eq_zero]; exact hx
  have hn1 : ¬ NumPlots st = 0 := by rw [NumPlots_eq_zero]; exact hn
  simp only [MakeFitGraphs, hx1, hn1, if_false]

theorem MakeFitGraphs_curves (fw : Framework Tree Hist F) (sqrt toFloat : F → F) (st : State Tree F)
    (NumXBins : Int) (MinX MaxX : F) (NumYBins : Int) (MinY MaxY : F) (ParamNumber : Int)
    (hx : ¬ (st.fInExprX = "" ∧ st.fInExprXs = []))
    (hn : ¬ (st.fInTrees = [] ∧ st.fInCuts = [] ∧ st.fInExpr = []))
    (lT : st.fInTrees = [] ∨ NumPlots st ≤ st.fInTrees.length)
    (lC : st.fInCuts = [] ∨ NumPlots st ≤ st.fInCuts.length)
    (lE : st.fInExpr = [] ∨ NumPlots st ≤ st.fInExpr.length)
    (lX : st.fInExprXs = [] ∨ NumPlots st ≤ st.fInExprXs.length) :
    ∃ (theGraphs : List (TGraphErrors F)) (st1 : State Tree F),
      MakeFitGraphs fw sqrt toFloat st NumXBins MinX MaxX NumYBins MinY MaxY ParamNumber
        = .ok (theGraphs, st1) ∧
      theGraphs.length = NumPlots st ∧
      ∀ i : Nat, i < NumPlots st → ∃ d : Nat,
        theGraphs[i]? = some (fitCurve fw sqrt toFloat st.fIncludeErrorBars st.fDumpingFits
          (funcLimits st.fParams st.fParamLows st.fParamHighs MinY MaxY)
          ((st.fInTrees[i]?).getD st.fDefaultTree) ((st.fInCuts[i]?).getD st.fDefaultCut)
          ((st.fInExpr[i]?).getD st.fDefaultExpr) ((st.fInExprXs[i]?).getD st.fInExprX)
          (histName (st.fPlotCounter + i)) d
          NumXBins MinX MaxX NumYBins MinY MaxY ParamNumber).1 := by
  obtain ⟨out, st1, hrun, hlen, hc⟩ := plotLoop_ok fw sqrt toFloat
    (funcLimits st.fParams st.fParamLows st.fParamHighs MinY MaxY)
    NumXBins MinX MaxX NumYBins MinY MaxY ParamNumber st.fInTrees st.fInCuts st.fInExpr
    st.fInExprXs st.fIncludeErrorBars st.fDumpingFits (NumPlots st) 0 st
    ⟨st.fDefaultTree, st.fDefaultCut, st.fDefaultExpr⟩ [] rfl rfl rfl rfl rfl rfl
    (by simpa using lT) (by simpa using lC) (by simpa using lE) (by simpa using lX)
  refine ⟨out, st1, ?_, hlen, ?_⟩
  · rw [MakeFitGraphs_run fw sqrt toFloat st NumXBins MinX MaxX NumYBins MinY MaxY ParamNumber hx hn,
      hrun]
    simp
  · intro i hi
    obtain ⟨d, hd⟩ := hc i hi
    exact ⟨d, by simpa using hd⟩

theorem MakeFitGraphs_short (fw : Framework Tree Hist F) (sqrt toFloat : F → F) (st : State Tree F)
    (NumXBins : Int) (MinX MaxX : F) (NumYBins : Int) (MinY MaxY : F) (ParamNumber : Int)
    (hx : ¬ (st.fInExprX = "" ∧ st.fInExprXs = []))
    (hshort : (st.fInTrees ≠ [] ∧ st.fInTrees.length < NumPlots st)
      ∨ (st.fInCuts ≠ [] ∧ st.fInCuts.length < NumPlots st)
      ∨ (st.fInExpr ≠ [] ∧ st.fInExpr.length < NumPlots st)
      ∨ (st.fInExprXs ≠ [] ∧ st.fInExprXs.length < NumPlots st)) :
    MakeFitGraphs fw sqrt toFloat st NumXBins MinX MaxX NumYBins MinY MaxY ParamNumber
      = .error .outOfRange := by
  have hpos : NumPlots st ≠ 0 := by
    rcases hshort with h | h | h | h <;> omega
  have hn : ¬ (st.fInTrees = [] ∧ st.fInCuts = [] ∧ st.fInExpr = []) := by
    rw [← NumPlots_eq_zero]; exact hpos
  rw [MakeFitGraphs_run fw sqrt toFloat st NumXBins MinX MaxX NumYBins MinY MaxY ParamNumber hx hn]
  rcases hshort with h | h | h | h
  · exact plotLoop_short fw sqrt toFloat _ NumXBins MinX MaxX NumYBins MinY MaxY ParamNumber
      st.fInTrees st.fInCuts st.fInExpr st.fInExprXs st.fInTrees.length
      (Or.inl ⟨h.1, le_refl _⟩) _ 0 st _ [] rfl rfl rfl rfl (by omega) (by omega)
  · exact plotLoop_short fw sqrt toFloat _ NumXBins MinX MaxX NumYBins MinY MaxY ParamNumber
      st.fInTrees st.fInCuts st.fInExpr st.fInExprXs st.fInCuts.length
      (Or.inr (Or.inl ⟨h.1, le_refl _⟩)) _ 0 st _ [] rfl rfl rfl rfl (by omega) (by omega)
  · exact plotLoop_short fw sqrt toFloat _ NumXBins MinX MaxX NumYBins MinY MaxY ParamNumber
      st.fInTrees st.fInCuts st.fInExpr st.fInExprXs st.fInExpr.length
      (Or.inr (Or.inr (Or.inl ⟨h.1, le_refl _⟩))) _ 0 st _ [] rfl rfl rfl rfl (by omega)
      (by omega)
  · exact plotLoop_short fw sqrt toFloat _ NumXBins MinX MaxX NumYBins MinY MaxY ParamNumber
      st.fInTrees st.fInCuts st.fInExpr st.fInExprXs st.fInExprXs.length
      (Or.inr (Or.inr (Or.inr ⟨h.1, le_refl _⟩))) _ 0 st _ [] rfl rfl rfl rfl (by omega)
      (by omega)

end FitGraphTheorems


/-- C6 fails as it is written. A configuration whose only non-empty list is an x-expression
list of one entry ends in the fatal "Nothing has been initialized" and returns no curve; a
configuration with a single x-expression whose only non-empty list is the y-expression list,
of two entries, ends in no fatal error and returns two curves. -/
theorem MakeFitGraphs_counts_y_expressions :
    MakeFitGraphs sampleFramework Real.sqrt toFloat32 (sampleState "" ["x"] [] [] []) 1 0 1 1 0 1 0
      = .error .nothingInitialized ∧
    ∃ (theGraphs : List (TGraphErrors ℝ)) (st1 : State String ℝ),
      MakeFitGraphs sampleFramework Real.sqrt toFloat32 (sampleState "x" [] [] [] ["a", "b"]) 1 0 1 1 0 1 0
        = .ok (theGraphs, st1) ∧ theGraphs.length = 2 := by
  constructor
  · simp [MakeFitGraphs, NumPlots, sampleState]
  · obtain ⟨g, st1, h, hl, _⟩ := MakeFitGraphs_curves sampleFramework Real.sqrt toFloat32
      (sampleState "x" [] [] [] ["a", "b"]) 1 0 1 1 0 1 0
      (by simp [sampleState]) (by simp [sampleState]) (by simp [sampleState])
      (by simp [sampleState]) (by simp [sampleState, NumPlots]) (by simp [sampleState])
    exact ⟨g, st1, h, by simpa [NumPlots, sampleState] using hl⟩

/-- C6, amended. `MakeFitGraphs` ends in one of its fatal errors exactly when no x-expression
is configured (the single x-expression is empty and the x-expression list is empty) or the
source list, the cut list and the y-expression list are all empty. In every other
configuration in which each per-curve list is empty or has at least `NumPlots` entries it
returns `NumPlots` curves, `NumPlots` being the size of the first non-empty list among the
sources, the cuts and the y-expressions. -/
theorem MakeFitGraphs_fatal_iff {F Tree Hist : Type} [LinearOrderedField F]
    (fw : Framework Tree Hist F) (sqrt toFloat : F → F) (st : State Tree F)
    (NumXBins : Int) (MinX MaxX : F) (NumYBins : Int) (MinY MaxY : F) (ParamNumber : Int) :
    ((∃ e : Fatal, MakeFitGraphs fw sqrt toFloat st NumXBins MinX MaxX NumYBins MinY MaxY ParamNumber
          = .error e ∧ e.isExit = true)
      ↔ ((st.fInExprX = "" ∧ st.fInExprXs = [])
          ∨ (st.fInTrees = [] ∧ st.fInCuts = [] ∧ st.fInExpr = []))) ∧
    (¬ (st.fInExprX = "" ∧ st.fInExprXs = []) →
      ¬ (st.fInTrees = [] ∧ st.fInCuts = [] ∧ st.fInExpr = []) →
      (st.fInTrees = [] ∨ NumPlots st ≤ st.fInTrees.length) →
      (st.fInCuts = [] ∨ NumPlots st ≤ st.fInCuts.length) →
      (st.fInExpr = [] ∨ NumPlots st ≤ st.fInExpr.length) →
      (st.fInExprXs = [] ∨ NumPlots st ≤ st.fInExprXs.length) →
      ∃ (theGraphs : List (TGraphErrors F)) (st1 : State Tree F),
        MakeFitGraphs fw sqrt toFloat st NumXBins MinX MaxX NumYBins MinY MaxY ParamNumber
          = .ok (theGraphs, st1) ∧
        theGraphs.length = NumPlots st ∧ NumPlots st ≠ 0 ∧
        NumPlots st = (if st.fInTrees.length ≠ 0 then st.fInTrees.length
          else if st.fInCuts.length ≠ 0 then st.fInCuts.length else st.fInExpr.length)) := by
  constructor
  · constructor
    · rintro ⟨e, he, hexit⟩
      by_contra hcon
      rw [not_or] at hcon
      rw [MakeFitGraphs_run fw sqrt toFloat st NumXBins MinX MaxX NumYBins MinY MaxY ParamNumber
        hcon.1 hcon.2] at he
      have := plotLoop_error fw sqrt toFloat _ NumXBins MinX MaxX NumYBins MinY MaxY ParamNumber _ _ _ _
        _ e he
      subst this
      simp [Fatal.isExit] at hexit
    · intro h
      by_cases hx : st.fInExprX = "" ∧ st.fInExprXs = []
      · refine ⟨.noXExpression, ?_, rfl⟩
        have hx1 : st.fInExprX = "" ∧ st.fInExprXs.length = 0 := by
          rw [List.length_eq_zero]; exact hx
        simp only [MakeFitGraphs, hx1, and_self, if_true]
      · have hn : st.fInTrees = [] ∧ st.fInCuts = [] ∧ st.fInExpr = [] := by
          rcases h with h | h
          · exact absurd h hx
          · exact h
        refine ⟨.nothingInitialized, ?_, rfl⟩
        have hx1 : ¬ (st.fInExprX = "" ∧ st.fInExprXs.length = 0) := by
          rw [List.length_eq_zero]; exact hx
        have hn1 : NumPlots st = 0 := (NumPlots_eq_zero st).2 hn
        simp only [MakeFitGraphs, hx1, hn1, if_false, if_true]
  · intro hx hn lT lC lE lX
    obtain ⟨g, st1, h, hl, _⟩ := MakeFitGraphs_curves fw sqrt toFloat st NumXBins MinX MaxX NumYBins MinY
      MaxY ParamNumber hx hn lT lC lE lX
    refine ⟨g, st1, h, hl, ?_, ?_⟩
    · rw [Ne, NumPlots_eq_zero]; exact hn
    · unfold NumPlots
      simp only [gt_iff_lt, Nat.pos_iff_ne_zero]

theorem MakeFitGraphs_fatal_iff_witness :
    ∃ (theGraphs : List (TGraphErrors ℝ)) (st1 : State String ℝ),
      MakeFitGraphs sampleFramework Real.sqrt toFloat32 (sampleState "x" [] [] ["c0", "c1", "c2"] []) 2 0 1
        1 0 1 1 = .ok (theGraphs, st1) ∧ theGraphs.length = 3 := by
  obtain ⟨g, st1, h, hl, _, hn⟩ := (MakeFitGraphs_fatal_iff sampleFramework Real.sqrt toFloat32
      (sampleState "x" [] [] ["c0", "c1", "c2"] []) 2 0 1 1 0 1 1).2
    (by simp [sampleState]) (by simp [sampleState]) (by simp [sampleState])
    (by simp [sampleState, NumPlots]) (by simp [sampleState]) (by simp [sampleState])
  exact ⟨g, st1, h, by rw [hl, hn]; simp [sampleState]⟩

/-- C7 fails as it is written: with two sources and a cut list of exactly one element, the
second curve reads the cut list past its end; the single cut is not reused. -/
theorem MakeFitGraphs_single_cut_not_reused :
    MakeFitGraphs sampleFramework Real.sqrt toFloat32 (sampleState "x" [] ["t0", "t1"] ["c"] []) 1 0 1 1 0
      1 0 = .error .outOfRange := by
  apply MakeFitGraphs_short
  · simp [sampleState]
  · right; left
    simp [sampleState, NumPlots]

/-- C7, amended. For every `MakeFitGraphs` configuration with an x-expression configured and
a curve count `N = NumPlots ≥ 1`: if each per-curve list (sources, cuts, y-expressions,
x-expressions) is empty or has at least `N` elements, the call returns `N` curves with no
out-of-range list access, and curve `i < N` is fitted from element `i` of every list that
has one and from the shared default (default source, default cut, default y-expression,
the single x-expression) for every list that is empty; if instead some list
is not empty and has fewer than `N` elements, as a list of exactly one element has when
`N > 1`, the call reads that list past its end. -/
theorem MakeFitGraphs_shared_inputs {F Tree Hist : Type} [LinearOrderedField F]
    (fw : Framework Tree Hist F) (sqrt toFloat : F → F) (st : State Tree F)
    (NumXBins : Int) (MinX MaxX : F) (NumYBins : Int) (MinY MaxY : F) (ParamNumber : Int)
    (hx : ¬ (st.fInExprX = "" ∧ st.fInExprXs = [])) (hN : 1 ≤ NumPlots st) :
    ((st.fInTrees = [] ∨ NumPlots st ≤ st.fInTrees.length) →
      (st.fInCuts = [] ∨ NumPlots st ≤ st.fInCuts.length) →
      (st.fInExpr = [] ∨ NumPlots st ≤ st.fInExpr.length) →
      (st.fInExprXs = [] ∨ NumPlots st ≤ st.fInExprXs.length) →
      ∃ (theGraphs : List (TGraphErrors F)) (st1 : State Tree F),
        MakeFitGraphs fw sqrt toFloat st NumXBins MinX MaxX NumYBins MinY MaxY ParamNumber
          = .ok (theGraphs, st1) ∧
        theGraphs.length = NumPlots st ∧
        ∀ i : Nat, i < NumPlots st → ∃ d : Nat,
          theGraphs[i]? = some (fitCurve fw sqrt toFloat st.fIncludeErrorBars st.fDumpingFits
            (funcLimits st.fParams st.fParamLows st.fParamHighs MinY MaxY)
            ((st.fInTrees[i]?).getD st.fDefaultTree) ((st.fInCuts[i]?).getD st.fDefaultCut)
            ((st.fInExpr[i]?).getD st.fDefaultExpr) ((st.fInExprXs[i]?).getD st.fInExprX)
            (histName (st.fPlotCounter + i)) d
            NumXBins MinX MaxX NumYBins MinY MaxY ParamNumber).1) ∧
    (((st.fInTrees ≠ [] ∧ st.fInTrees.length < NumPlots st)
        ∨ (st.fInCuts ≠ [] ∧ st.fInCuts.length < NumPlots st)
        ∨ (st.fInExpr ≠ [] ∧ st.fInExpr.length < NumPlots st)
        ∨ (st.fInExprXs ≠ [] ∧ st.fInExprXs.length < NumPlots st)) →
      MakeFitGraphs fw sqrt toFloat st NumXBins MinX MaxX NumYBins MinY MaxY ParamNumber
        = .error .outOfRange) := by
  have hn : ¬ (st.fInTrees = [] ∧ st.fInCuts = [] ∧ st.fInExpr = []) := by
    rw [← NumPlots_eq_zero]; omega
  constructor
  · intro lT lC lE lX
    obtain ⟨g, st1, h, hl, hc⟩ := MakeFitGraphs_curves fw sqrt toFloat st NumXBins MinX MaxX NumYBins MinY
      MaxY ParamNumber hx hn lT lC lE lX
    exact ⟨g, st1, h, hl, hc⟩
  · exact MakeFitGraphs_short fw sqrt toFloat st NumXBins MinX MaxX NumYBins MinY MaxY ParamNumber hx

theorem MakeFitGraphs_shared_inputs_witness :
    (∃ (theGraphs : List (TGraphErrors ℝ)) (st1 : State String ℝ),
      MakeFitGraphs sampleFramework Real.sqrt toFloat32 (sampleState "x" [] ["t0", "t1"] [] ["y0", "y1"]) 1
        0 1 1 0 1 0 = .ok (theGraphs, st1) ∧ theGraphs.length = 2) ∧
    MakeFitGraphs sampleFramework Real.sqrt toFloat32 (sampleState "x" ["x0"] ["t0", "t1"] [] []) 1 0 1 1 0
      1 0 = .error .outOfRange := by
  constructor
  · obtain ⟨g, st1, h, hl, _⟩ := (MakeFitGraphs_shared_inputs sampleFramework Real.sqrt toFloat32
        (sampleState "x" [] ["t0", "t1"] [] ["y0", "y1"]) 1 0 1 1 0 1 0
        (by simp [sampleState]) (by simp [sampleState, NumPlots])).1
      (by simp [sampleState, NumPlots]) (by simp [sampleState]) (by simp [sampleState, NumPlots])
      (by simp [sampleState])
    exact ⟨g, st1, h, by simpa [NumPlots, sampleState] using hl⟩
  · exact (MakeFitGraphs_shared_inputs sampleFramework Real.sqrt toFloat32
        (sampleState "x" ["x0"] ["t0", "t1"] [] []) 1 0 1 1 0 1 0
        (by simp [sampleState]) (by simp [sampleState, NumPlots])).2
      (by right; right; right; simp [sampleState, NumPlots])

end PlotResolution

namespace TemplateGenerator

section Sanitation

theorem getD_set_self (l : List ℝ) (i : Nat) (a : ℝ) :
    ((l.set i a)[i]?).getD 0 = if i < l.length then a else 0 := by
  by_cases h : i < l.length
  · simp [h]
  · have hl : (l.set i a).length ≤ i := by simp; omega
    simp [h, List.getElem?_eq_none hl]

theorem getD_set_other (l : List ℝ) (i j : Nat) (a : ℝ) (h : i ≠ j) :
    ((l.set i a)[j]?).getD 0 = (l[j]?).getD 0 := by
  simp [List.getElem?_set, h]

theorem sanitizeBin_content_other (tmp : TH1D ℝ) (iX j : Nat) (h : iX ≠ j) :
    (sanitizeBin Real.sqrt tmp iX).GetBinContent j = tmp.GetBinContent j := by
  unfold sanitizeBin
  simp only [TH1D.GetBinContent, TH1D.SetBinContent, TH1D.SetBinError, TH1D.GetBinError]
  split_ifs <;> simp [List.getElem?_set, h]

theorem sanitizeBin_error_other (tmp : TH1D ℝ) (iX j : Nat) (h : iX ≠ j) :
    (sanitizeBin Real.sqrt tmp iX).GetBinError Real.sqrt j = tmp.GetBinError Real.sqrt j := by
  unfold sanitizeBin
  simp only [TH1D.GetBinContent, TH1D.SetBinContent, TH1D.SetBinError, TH1D.GetBinError]
  split_ifs <;> simp [List.getElem?_set, h]

theorem sanitizeBin_content_self (tmp : TH1D ℝ) (iX : Nat) :
    (sanitizeBin Real.sqrt tmp iX).GetBinContent iX
      = if tmp.GetBinContent iX < 0 then 0 else tmp.GetBinContent iX := by
  unfold sanitizeBin
  simp only [TH1D.GetBinContent, TH1D.SetBinContent, TH1D.SetBinError, TH1D.GetBinError]
  by_cases hr : iX < tmp.fArray.length
  · split_ifs <;> simp_all
  · have : tmp.fArray.length ≤ iX := by omega
    split_ifs <;> simp_all [List.getElem?_eq_none this]

theorem sanitizeBin_error_self (tmp : TH1D ℝ) (iX : Nat) :
    (sanitizeBin Real.sqrt tmp iX).GetBinError Real.sqrt iX
      = if tmp.GetBinContent iX - tmp.GetBinError Real.sqrt iX < 0 then 0
        else tmp.GetBinError Real.sqrt iX := by
  have he : 0 ≤ tmp.GetBinError Real.sqrt iX := Real.sqrt_nonneg _
  have hz : ∀ t : TH1D ℝ, (t.SetBinError iX 0).GetBinError Real.sqrt iX = 0 := by
    intro t
    simp only [TH1D.GetBinError, TH1D.SetBinError, getD_set_self]
    split_ifs <;> simp
  by_cases hc : tmp.GetBinContent iX < 0
  · have hin : iX < tmp.fArray.length := by
      by_contra hn
      have : tmp.fArray.length ≤ iX := by omega
      simp [TH1D.GetBinContent, List.getElem?_eq_none this] at hc
    have h1 : (tmp.SetBinContent iX 0).GetBinContent iX = 0 := by
      simp [TH1D.GetBinContent, TH1D.SetBinContent, hin]
    have h2 : (tmp.SetBinContent iX 0).GetBinError Real.sqrt iX = tmp.GetBinError Real.sqrt iX :=
      rfl
    have h3 : tmp.GetBinContent iX - tmp.GetBinError Real.sqrt iX < 0 := by linarith
    simp only [sanitizeBin, hc, if_true, h1, h2, h3]
    by_cases hp : 0 - tmp.GetBinError Real.sqrt iX < 0
    · simp only [hp, if_true, hz]
    · simp only [hp, if_false, h2]
      linarith
  · simp only [sanitizeBin, hc, if_false]
    by_cases hp : tmp.GetBinContent iX - tmp.GetBinError Real.sqrt iX < 0
    · simp only [hp, if_true, hz]
    · simp only [hp, if_false]

theorem sanitizeLoop_spec :
    ∀ (k iX : Nat) (tmp : TH1D ℝ) (j : Nat),
      (sanitizeLoop Real.sqrt k iX tmp).GetBinContent j
          = (if iX ≤ j ∧ j < iX + k then
              (if tmp.GetBinContent j < 0 then 0 else tmp.GetBinContent j)
            else tmp.GetBinContent j) ∧
        (sanitizeLoop Real.sqrt k iX tmp).GetBinError Real.sqrt j
          = (if iX ≤ j ∧ j < iX + k then
              (if tmp.GetBinContent j - tmp.GetBinError Real.sqrt j < 0 then 0
                else tmp.GetBinError Real.sqrt j)
            else tmp.GetBinError Real.sqrt j)
  | 0, iX, tmp, j => by
    have : ¬ (iX ≤ j ∧ j < iX + 0) := by omega
    simp only [sanitizeLoop, this, if_false, and_self]
  | k + 1, iX, tmp, j => by
    have ih := sanitizeLoop_spec k (iX + 1) (sanitizeBin Real.sqrt tmp iX) j
    unfold sanitizeLoop
    rw [ih.1, ih.2]
    by_cases hj : iX = j
    · subst hj
      have h1 : ¬ (iX + 1 ≤ iX ∧ iX < iX + 1 + k) := by omega
      have h2 : iX ≤ iX ∧ iX < iX + (k + 1) := by omega
      simp only [h1, h2, if_false, if_true, sanitizeBin_content_self, sanitizeBin_error_self,
        and_self]
    · have h1 : (iX + 1 ≤ j ∧ j < iX + 1 + k) ↔ (iX ≤ j ∧ j < iX + (k + 1)) := by omega
      simp only [h1, sanitizeBin_content_other tmp iX j hj, sanitizeBin_error_other tmp iX j hj,
        and_self]

end Sanitation


section TemplateTheorems

theorem sanitizeLoop_content (k iX : Nat) (tmp : TH1D ℝ) (j : Nat) (h1 : iX ≤ j)
    (h2 : j < iX + k) :
    (sanitizeLoop Real.sqrt k iX tmp).GetBinContent j
      = if tmp.GetBinContent j < 0 then 0 else tmp.GetBinContent j := by
  rw [(sanitizeLoop_spec k iX tmp j).1, if_pos ⟨h1, h2⟩]

theorem sanitizeLoop_error (k iX : Nat) (tmp : TH1D ℝ) (j : Nat) (h1 : iX ≤ j)
    (h2 : j < iX + k) :
    (sanitizeLoop Real.sqrt k iX tmp).GetBinError Real.sqrt j
      = if tmp.GetBinContent j - tmp.GetBinError Real.sqrt j < 0 then 0
        else tmp.GetBinError Real.sqrt j := by
  rw [(sanitizeLoop_spec k iX tmp j).2, if_pos ⟨h1, h2⟩]

theorem makeTemplate_ok_some (g : Members ℝ) (_type : SkimType) (_name _expr : String)
    (_var : Variable) (value0 : List ℝ) (h : TH1D ℝ)
    (hret : makeTemplate Real.sqrt g _type _name _expr _var value0 = .ok (some h)) :
    ∃ (elist : TEntryListArray) (filled : TH1D ℝ),
      (g.input_ _type).Draw _expr = some elist ∧
      filledTemplate g _type _name elist _var value0 = .ok filled ∧
      h = sanitizeLoop Real.sqrt (g.nBins_ _var) 1 filled := by
  unfold makeTemplate at hret
  cases hd : (g.input_ _type).Draw _expr with
  | none => simp [hd] at hret
  | some elist =>
    cases _var with
    | kDRGen => simp [hd] at hret
    | kMass =>
      cases hf : filledTemplate g _type _name elist .kMass value0 with
      | error e => simp [hd, hf] at hret
      | ok filled =>
        simp [hd, hf] at hret
        exact ⟨elist, filled, rfl, hf, hret.symm⟩

end TemplateTheorems

/-- C3. In the histogram `h` that `makeTemplate` returns, every bin `1 ≤ iX ≤ nBins` is the
bin of the filled histogram (content `c`, error `e`, and `0 ≤ e`) after two independent
clamps: the content is `0` if `c < 0` and `c` otherwise, the error is `0` if `c - e < 0` and
`e` otherwise. So a bin with `0 ≤ c < e` keeps its content and loses its error, a bin with
`c < 0` has both set to `0`, and a bin with `e ≤ c` is unchanged. -/
theorem makeTemplate_two_clamps (g : Members ℝ) (_type : SkimType) (_name _expr : String)
    (_var : Variable) (value0 : List ℝ) (h : TH1D ℝ)
    (hret : makeTemplate Real.sqrt g _type _name _expr _var value0 = .ok (some h)) :
    ∃ (elist : TEntryListArray) (filled : TH1D ℝ),
      (g.input_ _type).Draw _expr = some elist ∧
      filledTemplate g _type _name elist _var value0 = .ok filled ∧
      ∀ iX : Nat, 1 ≤ iX → iX ≤ g.nBins_ _var →
        0 ≤ filled.GetBinError Real.sqrt iX ∧
        h.GetBinContent iX
          = (if filled.GetBinContent iX < 0 then 0 else filled.GetBinContent iX) ∧
        h.GetBinError Real.sqrt iX
          = (if filled.GetBinContent iX - filled.GetBinError Real.sqrt iX < 0 then 0
              else filled.GetBinError Real.sqrt iX) ∧
        (0 ≤ filled.GetBinContent iX →
          filled.GetBinContent iX < filled.GetBinError Real.sqrt iX →
            h.GetBinContent iX = filled.GetBinContent iX ∧ h.GetBinError Real.sqrt iX = 0) ∧
        (filled.GetBinContent iX < 0 →
          h.GetBinContent iX = 0 ∧ h.GetBinError Real.sqrt iX = 0) ∧
        (filled.GetBinError Real.sqrt iX ≤ filled.GetBinContent iX →
          h.GetBinContent iX = filled.GetBinContent iX ∧
            h.GetBinError Real.sqrt iX = filled.GetBinError Real.sqrt iX) := by
  obtain ⟨elist, filled, hd, hf, hh⟩ :=
    makeTemplate_ok_some g _type _name _expr _var value0 h hret
  refine ⟨elist, filled, hd, hf, ?_⟩
  intro iX h1 h2
  have he : 0 ≤ filled.GetBinError Real.sqrt iX := Real.sqrt_nonneg _
  have hc := sanitizeLoop_content (g.nBins_ _var) 1 filled iX h1 (by omega)
  have hr := sanitizeLoop_error (g.nBins_ _var) 1 filled iX h1 (by omega)
  rw [← hh] at hc hr
  refine ⟨he, hc, hr, ?_, ?_, ?_⟩
  · intro h0 hlt
    rw [hc, hr, if_neg (not_lt.2 h0), if_pos (by linarith)]
    exact ⟨rfl, rfl⟩
  · intro hneg
    rw [hc, hr, if_pos hneg, if_pos (by linarith)]
    exact ⟨rfl, rfl⟩
  · intro hle
    rw [hc, hr, if_neg (not_lt.2 (le_trans he hle)), if_neg (by linarith)]
    exact ⟨rfl, rfl⟩


theorem sample_filled (w : ℝ) :
    filledTemplate (sampleGenerator w (some ⟨[(0, some [0])]⟩)) .kEG "t" ⟨[(0, some [0])]⟩
      .kMass [] = .ok ((makeEmptyTemplate (sampleGenerator w (some ⟨[(0, some [0])]⟩)) "t"
        .kMass).Sumw2.Fill 70 w) := by
  simp [filledTemplate, fillEntries, GetEntry, fillObjects, sampleGenerator, NMAX]

theorem sample_findBin (w : ℝ) :
    (makeEmptyTemplate (sampleGenerator w (some ⟨[(0, some [0])]⟩)) "t" .kMass).Sumw2.FindBin 70
      = 11 := by
  simp [makeEmptyTemplate, sampleGenerator, newTH1D, TH1D.Sumw2, TH1D.FindBin, defaultNBins,
    defaultXmin, defaultXmax]
  norm_num
  rfl

theorem sample_content (w : ℝ) :
    ((makeEmptyTemplate (sampleGenerator w (some ⟨[(0, some [0])]⟩)) "t" .kMass).Sumw2.Fill 70
      w).GetBinContent 11 = w := by
  simp only [TH1D.Fill, sample_findBin, TH1D.GetBinContent]
  simp [makeEmptyTemplate, sampleGenerator, newTH1D, TH1D.Sumw2, defaultNBins, List.modify,
    List.replicate]

theorem sample_sumw2 (w : ℝ) :
    ((makeEmptyTemplate (sampleGenerator w (some ⟨[(0, some [0])]⟩)) "t" .kMass).Sumw2.Fill 70
      w).GetBinError Real.sqrt 11 = |w| := by
  simp only [TH1D.Fill, sample_findBin, TH1D.GetBinError]
  simp [makeEmptyTemplate, sampleGenerator, newTH1D, TH1D.Sumw2, defaultNBins, List.modify,
    List.replicate, ← sq, Real.sqrt_sq_eq_abs]

theorem makeTemplate_two_clamps_witness :
    ∃ h : TH1D ℝ,
      makeTemplate Real.sqrt (sampleGenerator (-1) (some ⟨[(0, some [0])]⟩)) .kEG "t" "sel"
        .kMass [] = .ok (some h) ∧
      h.GetBinContent 11 = 0 ∧ h.GetBinError Real.sqrt 11 = 0 := by
  have hret : makeTemplate Real.sqrt (sampleGenerator (-1) (some ⟨[(0, some [0])]⟩)) .kEG "t"
      "sel" .kMass [] = .ok (some (sanitizeLoop Real.sqrt 60 1
        ((makeEmptyTemplate (sampleGenerator (-1 : ℝ) (some ⟨[(0, some [0])]⟩)) "t"
          .kMass).Sumw2.Fill 70 (-1)))) := by
    simp only [makeTemplate, sample_filled]
    rfl
  obtain ⟨elist, filled, hd, hf, hb⟩ := makeTemplate_two_clamps _ _ _ _ _ _ _ hret
  have hel : elist = ⟨[(0, some [0])]⟩ := by
    simp [sampleGenerator] at hd
    exact hd.symm
  subst hel
  rw [sample_filled] at hf
  have hfe : filled = _ := (Except.ok.inj hf).symm
  have h11 := (hb 11 (by norm_num) (by simp [sampleGenerator, defaultNBins])).2.2.2.2.1
  rw [hfe, sample_content] at h11
  exact ⟨_, hret, h11 (by norm_num)⟩


section ZeroMatch

theorem empty_content (g : Members ℝ) (_name : String) (_var : Variable) (bin : Nat) :
    (makeEmptyTemplate g _name _var).Sumw2.GetBinContent bin = 0 := by
  simp only [TH1D.GetBinContent, TH1D.Sumw2, makeEmptyTemplate, newTH1D]
  by_cases h : bin < (if g.nBins_ _var = 0 then 1 else g.nBins_ _var) + 2
  · simp [List.getElem?_replicate, h]
  · simp [List.getElem?_replicate, h]

theorem empty_error (g : Members ℝ) (_name : String) (_var : Variable) (bin : Nat) :
    (makeEmptyTemplate g _name _var).Sumw2.GetBinError Real.sqrt bin = 0 := by
  simp only [TH1D.GetBinError, TH1D.Sumw2, makeEmptyTemplate, newTH1D]
  by_cases h : bin < (if g.nBins_ _var = 0 then 1 else g.nBins_ _var) + 2
  · simp [List.getElem?_replicate, h]
  · simp [List.getElem?_replicate, h]

theorem makeTemplate_empty_list (g : Members ℝ) (_type : SkimType) (_name _expr : String)
    (value0 : List ℝ) (hd : (g.input_ _type).Draw _expr = some ⟨[]⟩) :
    ∃ h : TH1D ℝ, makeTemplate Real.sqrt g _type _name _expr .kMass value0 = .ok (some h) ∧
      ∀ bin : Nat, h.GetBinContent bin = 0 ∧ h.GetBinError Real.sqrt bin = 0 := by
  refine ⟨sanitizeLoop Real.sqrt (g.nBins_ .kMass) 1 (makeEmptyTemplate g _name .kMass).Sumw2,
    by simp [makeTemplate, hd, filledTemplate, fillEntries], ?_⟩
  intro bin
  have hs := sanitizeLoop_spec (g.nBins_ .kMass) 1 (makeEmptyTemplate g _name .kMass).Sumw2 bin
  rw [hs.1, hs.2]
  simp [empty_content, empty_error]

end ZeroMatch

/-- C4 fails as it is written: for a selection that yields an entry list with no entries,
`makeTemplate` returns a histogram, every bin of which has content `0` and error `0`, and not
the null pointer. -/
theorem makeTemplate_empty_list_not_null :
    ∃ h : TH1D ℝ,
      makeTemplate Real.sqrt (sampleGenerator 1 (some ⟨[]⟩)) .kEG "t" "sel" .kMass []
        = .ok (some h) ∧
      (∀ bin : Nat, h.GetBinContent bin = 0 ∧ h.GetBinError Real.sqrt bin = 0) ∧
      makeTemplate Real.sqrt (sampleGenerator 1 (some ⟨[]⟩)) .kEG "t" "sel" .kMass []
        ≠ .ok none := by
  obtain ⟨h, hret, hz⟩ := makeTemplate_empty_list (sampleGenerator 1 (some ⟨[]⟩)) .kEG "t" "sel"
    [] rfl
  exact ⟨h, hret, hz, by rw [hret]; simp⟩

/-- C4, amended. For every skim type, output name and selection expression, with the
implemented variable `kMass`: when the selection yields no entry list, `makeTemplate` and
`makeUnbinnedTemplate` return the null pointer and raise no error; when it yields an entry
list with no entries, neither raises an error, `makeTemplate` returns a histogram all of
whose bins have content `0` and error `0`, and `makeUnbinnedTemplate` returns a table with
no rows. -/
theorem zero_match_templates (g : Members ℝ) (_type : SkimType) (_name _expr : String)
    (value0 : List ℝ) :
    ((g.input_ _type).Draw _expr = none →
      makeTemplate Real.sqrt g _type _name _expr .kMass value0 = .ok none ∧
      makeUnbinnedTemplate g _type _name _expr .kMass value0 = .ok none) ∧
    ((g.input_ _type).Draw _expr = some ⟨[]⟩ →
      (∃ h : TH1D ℝ, makeTemplate Real.sqrt g _type _name _expr .kMass value0 = .ok (some h) ∧
        ∀ bin : Nat, h.GetBinContent bin = 0 ∧ h.GetBinError Real.sqrt bin = 0) ∧
      makeUnbinnedTemplate g _type _name _expr .kMass value0 = .ok (some ⟨_name, []⟩)) := by
  constructor
  · intro hd
    simp [makeTemplate, makeUnbinnedTemplate, hd]
  · intro hd
    exact ⟨makeTemplate_empty_list g _type _name _expr value0 hd,
      by simp [makeUnbinnedTemplate, hd, rowEntries]⟩

theorem zero_match_templates_witness :
    (makeTemplate Real.sqrt (sampleGenerator 1 none) .kMG "t" "sel" .kMass [] = .ok none ∧
      makeUnbinnedTemplate (sampleGenerator (1 : ℝ) none) .kMG "t" "sel" .kMass [] = .ok none) ∧
    makeUnbinnedTemplate (sampleGenerator (1 : ℝ) (some ⟨[]⟩)) .kMG "t" "sel" .kMass []
      = .ok (some ⟨"t", []⟩) :=
  ⟨(zero_match_templates (sampleGenerator 1 none) .kMG "t" "sel" []).1 rfl,
    ((zero_match_templates (sampleGenerator 1 (some ⟨[]⟩)) .kMG "t" "sel" []).2 rfl).2⟩

/-- C5 fails as it is written: with the variable `kDRGen` and a selection that matches an
object, `makeTemplate` and `makeUnbinnedTemplate` return the null pointer and raise no
error, which is the very outcome of a selection that yields no entry list. -/
theorem unimplemented_variable_returns_null :
    makeTemplate Real.sqrt (sampleGenerator 1 (some ⟨[(0, some [0])]⟩)) .kEG "t" "sel" .kDRGen []
      = .ok none ∧
    makeUnbinnedTemplate (sampleGenerator (1 : ℝ) (some ⟨[(0, some [0])]⟩)) .kEG "t" "sel"
      .kDRGen [] = .ok none ∧
    makeTemplate Real.sqrt (sampleGenerator 1 none) .kEG "t" "sel" .kMass [] = .ok none ∧
    makeUnbinnedTemplate (sampleGenerator (1 : ℝ) none) .kEG "t" "sel" .kMass [] = .ok none := by
  refine ⟨?_, ?_, ?_, ?_⟩ <;> simp [makeTemplate, makeUnbinnedTemplate, sampleGenerator]

/-- C5, amended. For every skim type, output name and selection expression, a call of
`makeTemplate` or `makeUnbinnedTemplate` with a variable other than `kMass` raises no error
and returns the null pointer, the same outcome as for a selection that yields no entry
list. -/
theorem unimplemented_variable_null (sqrt : ℝ → ℝ) (g : Members ℝ) (_type : SkimType)
    (_name _expr : String) (_var : Variable) (value0 : List ℝ) (hvar : _var ≠ .kMass) :
    makeTemplate sqrt g _type _name _expr _var value0 = .ok none ∧
    makeUnbinnedTemplate g _type _name _expr _var value0 = .ok none := by
  cases _var with
  | kMass => exact absurd rfl hvar
  | kDRGen =>
    cases hd : (g.input_ _type).Draw _expr <;> simp [makeTemplate, makeUnbinnedTemplate, hd]

theorem unimplemented_variable_null_witness :
    makeTemplate Real.sqrt (sampleGenerator 1 (some ⟨[(0, some [0])]⟩)) .kMMG "t" "sel"
      .kDRGen [] = .ok none ∧
    makeUnbinnedTemplate (sampleGenerator (1 : ℝ) (some ⟨[(0, some [0])]⟩)) .kMMG "t" "sel"
      .kDRGen [] = .ok none :=
  unimplemented_variable_null Real.sqrt (sampleGenerator 1 (some ⟨[(0, some [0])]⟩)) .kMMG "t"
    "sel" .kDRGen [] (by decide)

end TemplateGenerator

namespace PlotResolution

section BinCentres

variable {F : Type} [LinearOrderedField F] {Tree Hist : Type}

/-- For a rule `0..5`, `extractPoint` on a slot that still holds the preset zeros overwrites
that slot alone, with the bin centre as x and `0` as x-error. -/
theorem extractPoint_set (sqrt toFloat : F → F) (b : Bool) (ParamNumber : Int) (binCenter : F)
    (fitFunc fitLoose : FitResult F) (g : TGraphErrors F) (i1 : Nat)
    (hP : 0 ≤ ParamNumber ∧ ParamNumber ≤ 5) (hz : g[i1]? = some zeroPoint) :
    ∃ y e : F, extractPoint sqrt toFloat b ParamNumber binCenter fitFunc fitLoose g i1
      = g.set i1 ⟨binCenter, y, 0, e⟩ := by
  obtain ⟨h0, h5⟩ := hP
  have hcases : ParamNumber = 0 ∨ ParamNumber = 1 ∨ ParamNumber = 2 ∨ ParamNumber = 3
      ∨ ParamNumber = 4 ∨ ParamNumber = 5 := by omega
  rcases hcases with h | h | h | h | h | h <;> subst h
  all_goals exact ⟨_, _, write_zero_slot b g i1 binCenter _ _ hz⟩

/-- The loop over the x-bins writes, slot by slot, the x-value `c i1` and the x-error `0`. -/
theorem binLoop_points (fw : Framework Tree Hist F) (sqrt toFloat : F → F) (b dmp : Bool)
    (limits : List (Int × F × F)) (tempHist : Hist) (NumXBins : Int) (MinX MaxX MinY MaxY : F)
    (ParamNumber : Int) (hP : 0 ≤ ParamNumber ∧ ParamNumber ≤ 5) (n : Nat) :
    ∀ (k i1 : Nat) (g : TGraphErrors F) (d : Nat), i1 + k = n → g.length = n →
      (∀ i : Nat, i < i1 → ∃ p : GraphPoint F, g[i]? = some p ∧
        p.x = GetBinCenter NumXBins MinX MaxX ((i : Int) + 1) ∧ p.ex = 0) →
      (∀ i : Nat, i1 ≤ i → i < n → g[i]? = some zeroPoint) →
      (binLoop fw sqrt toFloat b dmp limits tempHist NumXBins MinX MaxX MinY MaxY ParamNumber k i1
          (g, d)).1.length = n ∧
      ∀ i : Nat, i < n → ∃ p : GraphPoint F,
        (binLoop fw sqrt toFloat b dmp limits tempHist NumXBins MinX MaxX MinY MaxY ParamNumber k i1
          (g, d)).1[i]? = some p ∧
        p.x = GetBinCenter NumXBins MinX MaxX ((i : Int) + 1) ∧ p.ex = 0
  | 0, i1, g, d, hik, hlen, hdone, _ => by
    have : i1 = n := by omega
    subst this
    exact ⟨hlen, hdone⟩
  | k + 1, i1, g, d, hik, hlen, hdone, hzero => by
    have hi1 : i1 < n := by omega
    obtain ⟨y, e, hset⟩ := extractPoint_set sqrt toFloat b ParamNumber
      (GetBinCenter NumXBins MinX MaxX ((i1 : Int) + 1))
      (fw.FitFunc tempHist (i1 + 1)
        [(fw.FitLoose tempHist (i1 + 1) [10, 0, 30] (looseLimits MinY MaxY) MinY
            MaxY).GetParameter 1,
          (fw.FitLoose tempHist (i1 + 1) [10, 0, 30] (looseLimits MinY MaxY) MinY
            MaxY).GetParameter 2,
          (fw.FitLoose tempHist (i1 + 1) [10, 0, 30] (looseLimits MinY MaxY) MinY
            MaxY).GetParameter 2 * 1.2,
          (fw.FitLoose tempHist (i1 + 1) [10, 0, 30] (looseLimits MinY MaxY) MinY
            MaxY).GetParameter 0 * 0.7,
          (fw.FitLoose tempHist (i1 + 1) [10, 0, 30] (looseLimits MinY MaxY) MinY
            MaxY).GetParameter 0 * 0.3] limits MinY MaxY)
      (fw.FitLoose tempHist (i1 + 1) [10, 0, 30] (looseLimits MinY MaxY) MinY MaxY)
      g i1 hP (hzero i1 (le_refl _) hi1)
    unfold binLoop
    simp only [hset]
    apply binLoop_points fw sqrt toFloat b dmp limits tempHist NumXBins MinX MaxX MinY MaxY ParamNumber
      hP n k (i1 + 1) _ _ (by omega) (by simp [hlen])
    · intro i hi
      by_cases hii : i = i1
      · subst hii
        exact ⟨⟨GetBinCenter NumXBins MinX MaxX ((i : Int) + 1), y, 0, e⟩,
          by simp [hlen, hi1], rfl, rfl⟩
      · obtain ⟨p, hp, hx, hex⟩ := hdone i (by omega)
        exact ⟨p, by rw [List.getElem?_set_ne (Ne.symm hii)]; exact hp, hx, hex⟩
    · intro i h1 h2
      rw [List.getElem?_set_ne (by omega)]
      exact hzero i (by omega) h2

/-- Every curve `fitCurve` makes under a rule `0..5` has one point per x-bin, with the
centre of the bin as x-value and `0` as x-error. -/
theorem fitCurve_points (fw : Framework Tree Hist F) (sqrt toFloat : F → F) (b dmp : Bool)
    (limits : List (Int × F × F)) (inTree : Tree) (inCut inExpr exprX tempName : String)
    (d : Nat) (NumXBins : Int) (MinX MaxX : F) (NumYBins : Int) (MinY MaxY : F)
    (ParamNumber : Int) (hP : 0 ≤ ParamNumber ∧ ParamNumber ≤ 5) :
    (fitCurve fw sqrt toFloat b dmp limits inTree inCut inExpr exprX tempName d NumXBins MinX MaxX
        NumYBins MinY MaxY ParamNumber).1.length = NumXBins.toNat ∧
    ∀ i : Nat, i < NumXBins.toNat → ∃ p : GraphPoint F,
      (fitCurve fw sqrt toFloat b dmp limits inTree inCut inExpr exprX tempName d NumXBins MinX MaxX
        NumYBins MinY MaxY ParamNumber).1[i]? = some p ∧
      p.x = GetBinCenter NumXBins MinX MaxX ((i : Int) + 1) ∧ p.ex = 0 := by
  unfold fitCurve
  apply binLoop_points fw sqrt toFloat b dmp limits _ NumXBins MinX MaxX MinY MaxY ParamNumber hP
    NumXBins.toNat NumXBins.toNat 0 _ d (by omega) (by simp [newGraph])
  · intro i hi
    omega
  · intro i _ hi
    simp [newGraph, List.getElem?_replicate, hi]

/-- A property of every curve `fitCurve` can make holds of every curve `plotLoop` adds. -/
theorem plotLoop_forall (fw : Framework Tree Hist F) (sqrt toFloat : F → F) (limits : List (Int × F × F))
    (NumXBins : Int) (MinX MaxX : F) (NumYBins : Int) (MinY MaxY : F) (ParamNumber : Int)
    (Q : TGraphErrors F → Prop)
    (hQ : ∀ (b dmp : Bool) (inTree : Tree) (inCut inExpr exprX tempName : String) (d : Nat),
      Q (fitCurve fw sqrt toFloat b dmp limits inTree inCut inExpr exprX tempName d NumXBins MinX MaxX
        NumYBins MinY MaxY ParamNumber).1) :
    ∀ (k i0 : Nat) (st : State Tree F) (loc : Locals Tree) (graphs out : List (TGraphErrors F))
      (st1 : State Tree F),
      plotLoop fw sqrt toFloat limits NumXBins MinX MaxX NumYBins MinY MaxY ParamNumber k i0 st loc
        graphs = .ok (out, st1) →
      (∀ g ∈ graphs, Q g) → ∀ g ∈ out, Q g
  | 0, i0, st, loc, graphs, out, st1, h, hg => by
    simp [plotLoop] at h
    rw [← h.1]
    exact hg
  | k + 1, i0, st, loc, graphs, out, st1, h, hg => by
    unfold plotLoop at h
    split at h
    · refine plotLoop_forall fw sqrt toFloat limits NumXBins MinX MaxX NumYBins MinY MaxY ParamNumber Q hQ
        k (i0 + 1) _ _ _ out st1 h ?_
      intro g hmem
      rcases List.mem_append.1 hmem with hm | hm
      · exact hg g hm
      · rw [List.mem_singleton.1 hm]
        exact hQ _ _ _ _ _ _ _ _
    · cases h

/-- The centre of bin `i + 1` of an axis of `NumXBins ≥ 1` equal bins. -/
theorem GetBinCenter_succ (NumXBins : Int) (MinX MaxX : F) (i : Nat) (hN : 1 ≤ NumXBins) :
    GetBinCenter NumXBins MinX MaxX ((i : Int) + 1)
      = MinX + ((i : F) + 1 / 2) * (MaxX - MinX) / (NumXBins : F) := by
  have hn : ¬ NumXBins ≤ 0 := by omega
  simp only [GetBinCenter, hn, if_false]
  push_cast
  norm_num
  ring

end BinCentres

/-- C11. For every call of `MakeFitGraphs` that returns, with `NumXBins ≥ 1`, `MinX < MaxX` and
`ParamNumber` one of the rules `0..5`, every returned curve has exactly `NumXBins` points; the
x-value of point `i` is the centre of x-bin `i`,
`MinX + (i + 1/2) * (MaxX - MinX) / NumXBins`; the x-values are strictly increasing; and
every x-error is `0`. -/
theorem MakeFitGraphs_bin_centres {F Tree Hist : Type} [LinearOrderedField F]
    (fw : Framework Tree Hist F) (sqrt toFloat : F → F) (st : State Tree F)
    (NumXBins : Int) (MinX MaxX : F) (NumYBins : Int) (MinY MaxY : F) (ParamNumber : Int)
    (theGraphs : List (TGraphErrors F)) (st1 : State Tree F)
    (hret : MakeFitGraphs fw sqrt toFloat st NumXBins MinX MaxX NumYBins MinY MaxY ParamNumber
      = .ok (theGraphs, st1))
    (hN : 1 ≤ NumXBins) (hX : MinX < MaxX) (hP : 0 ≤ ParamNumber ∧ ParamNumber ≤ 5) :
    ∀ g ∈ theGraphs,
      (g.length : Int) = NumXBins ∧
      (∀ i : Nat, (i : Int) < NumXBins → ∃ p : GraphPoint F, g[i]? = some p ∧
        p.x = MinX + ((i : F) + 1 / 2) * (MaxX - MinX) / (NumXBins : F) ∧ p.ex = 0) ∧
      (∀ (i j : Nat) (p q : GraphPoint F), i < j → g[i]? = some p → g[j]? = some q →
        p.x < q.x) ∧
      (∀ p ∈ g, p.ex = 0) := by
  have hx : ¬ (st.fInExprX = "" ∧ st.fInExprXs = []) := by
    intro hx
    have hx1 : st.fInExprX = "" ∧ st.fInExprXs.length = 0 := by
      rw [List.length_eq_zero]; exact hx
    simp only [MakeFitGraphs, hx1, and_self, if_true] at hret
    cases hret
  have hn : ¬ (st.fInTrees = [] ∧ st.fInCuts = [] ∧ st.fInExpr = []) := by
    intro hn
    have hx1 : ¬ (st.fInExprX = "" ∧ st.fInExprXs.length = 0) := by
      rw [List.length_eq_zero]; exact hx
    have hn1 : NumPlots st = 0 := (NumPlots_eq_zero st).2 hn
    simp only [MakeFitGraphs, hx1, hn1, if_false, if_true] at hret
    cases hret
  rw [MakeFitGraphs_run fw sqrt toFloat st NumXBins MinX MaxX NumYBins MinY MaxY ParamNumber hx hn]
    at hret
  have hall := plotLoop_forall fw sqrt toFloat _ NumXBins MinX MaxX NumYBins MinY MaxY ParamNumber
    (fun g => g.length = NumXBins.toNat ∧ ∀ i : Nat, i < NumXBins.toNat →
      ∃ p : GraphPoint F, g[i]? = some p ∧
        p.x = GetBinCenter NumXBins MinX MaxX ((i : Int) + 1) ∧ p.ex = 0)
    (fun b dmp inTree inCut inExpr exprX tempName d =>
      fitCurve_points fw sqrt toFloat b dmp _ inTree inCut inExpr exprX tempName d NumXBins MinX MaxX
        NumYBins MinY MaxY ParamNumber hP)
    _ _ _ _ _ theGraphs st1 hret (by simp)
  intro g hg
  obtain ⟨hlen, hpts⟩ := hall g hg
  have hpt : ∀ i : Nat, (i : Int) < NumXBins → ∃ p : GraphPoint F, g[i]? = some p ∧
      p.x = MinX + ((i : F) + 1 / 2) * (MaxX - MinX) / (NumXBins : F) ∧ p.ex = 0 := by
    intro i hi
    obtain ⟨p, hp, hxv, hex⟩ := hpts i (by omega)
    exact ⟨p, hp, by rw [hxv, GetBinCenter_succ NumXBins MinX MaxX i hN], hex⟩
  have hNF : (0 : F) < (NumXBins : F) := by
    have : (0 : Int) < NumXBins := by omega
    exact_mod_cast this
  refine ⟨by rw [hlen]; omega, hpt, ?_, ?_⟩
  · intro i j p q hij hp hq
    have hj : j < g.length := (List.getElem?_eq_some.1 hq).1
    obtain ⟨p1, hp1, hx1, _⟩ := hpt i (by omega)
    obtain ⟨q1, hq1, hx2, _⟩ := hpt j (by omega)
    rw [hp] at hp1
    rw [hq] at hq1
    cases hp1
    cases hq1
    rw [hx1, hx2]
    have hw : 0 < MaxX - MinX := sub_pos.2 hX
    have hij1 : (i : F) + 1 / 2 < (j : F) + 1 / 2 := by
      have : (i : F) < (j : F) := by exact_mod_cast hij
      linarith
    have := div_lt_div_of_pos_right (mul_lt_mul_of_pos_right hij1 hw) hNF
    linarith
  · intro p hp
    obtain ⟨i, hi, hgi⟩ := List.getElem_of_mem hp
    obtain ⟨p1, hp1, _, hex⟩ := hpt i (by omega)
    rw [List.getElem?_eq_getElem hi, hgi] at hp1
    cases hp1
    exact hex

theorem MakeFitGraphs_bin_centres_witness :
    ∃ (theGraphs : List (TGraphErrors ℝ)) (st1 : State String ℝ),
      MakeFitGraphs sampleFramework Real.sqrt toFloat32 (sampleState "x" [] [] [] ["a", "b"]) 2 0 1 1 0 1 1
        = .ok (theGraphs, st1) ∧
      theGraphs.length = 2 ∧
      ∀ g ∈ theGraphs, (g.length : Int) = 2 ∧
        (∃ p : GraphPoint ℝ, g[0]? = some p ∧ p.x = 1 / 4 ∧ p.ex = 0) ∧
        (∃ p : GraphPoint ℝ, g[1]? = some p ∧ p.x = 3 / 4 ∧ p.ex = 0) := by
  obtain ⟨g, st1, h, hl, _⟩ := MakeFitGraphs_curves sampleFramework Real.sqrt toFloat32
    (sampleState "x" [] [] [] ["a", "b"]) 2 0 1 1 0 1 1
    (by simp [sampleState]) (by simp [sampleState]) (by simp [sampleState])
    (by simp [sampleState]) (by simp [sampleState, NumPlots]) (by simp [sampleState])
  refine ⟨g, st1, h, by simpa [NumPlots, sampleState] using hl, ?_⟩
  intro c hc
  obtain ⟨h1, h2, _, _⟩ := MakeFitGraphs_bin_centres sampleFramework Real.sqrt toFloat32
    (sampleState "x" [] [] [] ["a", "b"]) 2 0 1 1 0 1 1 g st1 h (by norm_num) (by norm_num)
    (by norm_num) c hc
  refine ⟨h1, ?_, ?_⟩
  · obtain ⟨p, hp, hx, he⟩ := h2 0 (by norm_num)
    exact ⟨p, hp, by rw [hx]; norm_num, he⟩
  · obtain ⟨p, hp, hx, he⟩ := h2 1 (by norm_num)
    exact ⟨p, hp, by rw [hx]; norm_num, he⟩

end PlotResolution
